import Mathlib

/-!
Verification of the `flatpak-spawn` command-spawn relay
(`src/flatpak-spawn.c` of flatpak-xdg-utils) against its natural-language
specification.  The C program is shallowly embedded: each relevant C
function becomes an executable Lean definition over `Nat`/`Int`/`List`,
with OS- and D-Bus-level effects (replies from the portal, openability of
files and file descriptors) supplied by explicit oracle parameters.
-/

set_option linter.unusedVariables false

namespace FlatpakSpawn

/-! ## POSIX signal numbers (Linux; `signalfd` is Linux-only) -/

def SIGHUP : Nat := 1
def SIGINT : Nat := 2
def SIGQUIT : Nat := 3
def SIGUSR1 : Nat := 10
def SIGUSR2 : Nat := 12
def SIGTERM : Nat := 15
def SIGCONT : Nat := 18
def SIGSTOP : Nat := 19
def SIGTSTP : Nat := 20
def SIGTTIN : Nat := 21
def SIGTTOU : Nat := 22

/-! ## POSIX wait-status decoding (glibc `<bits/waitstatus.h>` macros)

`WIFSIGNALED` is glibc's `((signed char) (((status & 0x7f) + 1) >> 1) > 0`;
the cast to `signed char` is modelled by `signedChar` and the arithmetic
right shift by one is floor division by two (`Int.fdiv`), which agrees
with gcc's arithmetic shift on negative values. -/

def signedChar (x : Nat) : Int :=
  if x % 256 < 128 then (x % 256 : Int) else (x % 256 : Int) - 256

def WTERMSIG (s : Nat) : Nat := s &&& 0x7f

def WIFEXITED (s : Nat) : Bool := WTERMSIG s = 0

def WEXITSTATUS (s : Nat) : Nat := (s &&& 0xff00) >>> 8

def WIFSIGNALED (s : Nat) : Bool := 0 < Int.fdiv (signedChar (WTERMSIG s + 1)) 2

/-! ## `spawn_exited_cb` (flatpak-spawn.c:85-138)

On a `SpawnExited`/`HostCommandExited` notification `(client_pid,
wait_status)` the callback compares the pid with the locally held
`child_pid` and, on a match, terminates the process with an exit code
decoded from the wait status.  The result is `some (exitCode, warned)`
when the callback calls `exit`, `none` when the notification is ignored;
`warned` records whether the "neither WIFEXITED nor WIFSIGNALED" warning
was printed. -/

def spawn_exit_code (wait_status : Nat) : Nat :=
  if WIFEXITED wait_status then WEXITSTATUS wait_status
  else if WIFSIGNALED wait_status then 128 + WTERMSIG wait_status
  else 70

def spawn_exited_cb (child_pid client_pid wait_status : Nat) : Option (Nat × Bool) :=
  if child_pid = client_pid then
    some (spawn_exit_code wait_status,
          !WIFEXITED wait_status && !WIFSIGNALED wait_status)
  else
    none

/-! ## `forward_signal` (flatpak-spawn.c:153-214)

The effect of forwarding one captured signal.  `callFails` states whether
the remote `SpawnSignal`/`HostCommandSignal` call returns an error; the C
code only logs that error, so the field never influences the result.
`relayed` is the `(signal, toProcessGroup)` pair sent over the bus (absent
when no child is monitored yet), `raisedSelf` the signals raised against
the relay's own process, and `unblockedAndRaised` the signals the
child-less branch unblocks and re-raises locally. -/

structure SignalEffect where
  relayed : Option (Nat × Bool)
  raisedSelf : List Nat
  unblockedAndRaised : List Nat
deriving DecidableEq, Repr

def forward_signal (child_pid : Nat) (callFails : Bool) (sig : Nat) : SignalEffect :=
  if child_pid = 0 then
    if sig = SIGTSTP ∨ sig = SIGSTOP ∨ sig = SIGTTIN ∨ sig = SIGTTOU then
      { relayed := none, raisedSelf := [SIGSTOP], unblockedAndRaised := [] }
    else if sig ≠ SIGCONT then
      { relayed := none, raisedSelf := [], unblockedAndRaised := [sig] }
    else
      { relayed := none, raisedSelf := [], unblockedAndRaised := [] }
  else
    let sig2 := if sig = SIGTSTP then SIGSTOP else sig
    let toGroup := if sig2 = SIGINT ∨ sig2 = SIGSTOP ∨ sig2 = SIGCONT then true else false
    { relayed := some (sig2, toGroup),
      raisedSelf := if sig2 = SIGSTOP then [SIGSTOP] else [],
      unblockedAndRaised := [] }

/-! ## Bus lifecycle callbacks (flatpak-spawn.c:307-326, 340-348, 1156-1165) -/

inductive RelayOutcome where
  | exitNow (code : Nat)
  | quitLoop
  | keepRunning
deriving DecidableEq, Repr

/-- `name_owner_changed`: exit 1 when the spawn service's bus name loses
its owner (`newOwner = ""`). -/
def name_owner_changed (serviceBusName name oldOwner newOwner : String) : RelayOutcome :=
  if name = serviceBusName ∧ newOwner = "" then .exitNow 1 else .keepRunning

/-- `session_bus_closed_cb`: a closed bus connection quits the main loop. -/
def session_bus_closed_cb : RelayOutcome := .quitLoop

/-- After `g_main_loop_run` returns, `main` falls through to `return 0`. -/
def main_return_after_loop : Nat := 0

/-! ## Theorems for C1, C2, C8, C10 -/

/-- C1: for every exit notification whose pid matches the locally-held
remote process handle, the relay's exit code is `WEXITSTATUS` when the
status satisfies `WIFEXITED`, `128 + WTERMSIG` when it satisfies
`WIFSIGNALED`, and 70 (with a warning logged) when it satisfies neither. -/
theorem exit_status_decoding (child client ws : Nat) (h : child = client) :
    (WIFEXITED ws = true →
      spawn_exited_cb child client ws = some (WEXITSTATUS ws, false)) ∧
    (WIFEXITED ws = false → WIFSIGNALED ws = true →
      spawn_exited_cb child client ws = some (128 + WTERMSIG ws, false)) ∧
    (WIFEXITED ws = false → WIFSIGNALED ws = false →
      spawn_exited_cb child client ws = some (70, true)) := by
  refine ⟨fun he => ?_, fun he hs => ?_, fun he hs => ?_⟩ <;>
    simp [spawn_exited_cb, spawn_exit_code, h, he] <;> simp [hs]

/-- Witness for C1 at pid 7 and wait status `0x900`, a normal exit with
code 9. -/
theorem exit_status_decoding_witness :
    (7 : Nat) = 7 ∧
    ((WIFEXITED 0x900 = true →
       spawn_exited_cb 7 7 0x900 = some (WEXITSTATUS 0x900, false)) ∧
     (WIFEXITED 0x900 = false → WIFSIGNALED 0x900 = true →
       spawn_exited_cb 7 7 0x900 = some (128 + WTERMSIG 0x900, false)) ∧
     (WIFEXITED 0x900 = false → WIFSIGNALED 0x900 = false →
       spawn_exited_cb 7 7 0x900 = some (70, true))) :=
  ⟨rfl, exit_status_decoding 7 7 0x900 rfl⟩

/-- Counterexample for C2 as stated: with a remote process handle held
(`child_pid = 1`), forwarding `SIGTSTP` relays signal 19 (`SIGSTOP`) with
`toProcessGroup = true`, not `false` as the claim asserts: the
`SIGTSTP → SIGSTOP` translation happens before the process-group test, so
the translated signal matches the `SIGSTOP` case of that test. -/
theorem forward_signal_tstp_counterexample :
    (forward_signal 1 false SIGTSTP).relayed = some (SIGSTOP, true) ∧
    (forward_signal 1 false SIGTSTP).relayed ≠ some (SIGSTOP, false) := by
  constructor <;> decide

/-- C2 (amended): while a remote process handle is held, `SIGTSTP` is
relayed as `SIGSTOP`'s numeric value with `toProcessGroup = true` (not
`false`); `SIGINT` is relayed unmodified with `toProcessGroup = true`; and
any signal other than `SIGTSTP`, `SIGINT`, `SIGSTOP`, `SIGCONT` is relayed
unmodified targeting only the remote process (`toProcessGroup = false`). -/
theorem forward_signal_translation (child : Nat) (cf : Bool) (sig : Nat)
    (h : child ≠ 0) :
    (sig = SIGTSTP → (forward_signal child cf sig).relayed = some (SIGSTOP, true)) ∧
    (sig = SIGINT → (forward_signal child cf sig).relayed = some (SIGINT, true)) ∧
    (sig ≠ SIGTSTP → sig ≠ SIGINT → sig ≠ SIGSTOP → sig ≠ SIGCONT →
      (forward_signal child cf sig).relayed = some (sig, false)) := by
  refine ⟨fun ht => ?_, fun hi => ?_, fun h1 h2 h3 h4 => ?_⟩ <;>
    simp_all [forward_signal, SIGTSTP, SIGINT, SIGSTOP, SIGCONT]

/-- Witness for C2 (amended), at `child_pid = 1`, a failing remote call,
and signal `SIGTSTP`. -/
theorem forward_signal_translation_witness :
    (SIGTSTP = SIGTSTP →
      (forward_signal 1 true SIGTSTP).relayed = some (SIGSTOP, true)) ∧
    (SIGTSTP = SIGINT →
      (forward_signal 1 true SIGTSTP).relayed = some (SIGINT, true)) ∧
    (SIGTSTP ≠ SIGTSTP → SIGTSTP ≠ SIGINT → SIGTSTP ≠ SIGSTOP → SIGTSTP ≠ SIGCONT →
      (forward_signal 1 true SIGTSTP).relayed = some (SIGTSTP, false)) :=
  forward_signal_translation 1 true SIGTSTP (by decide)

/-- C10: in the relaying state (`child_pid ≠ 0`), whenever the signal
being forwarded is `SIGSTOP` after translation (a captured `SIGSTOP` or a
`SIGTSTP` translated to it), the relay raises `SIGSTOP` against its own
process after the remote call returns, regardless of whether that call
failed (`cf` is arbitrary: the error is only logged). -/
theorem forward_signal_sigstop_raises_self (child : Nat) (cf : Bool) (sig : Nat)
    (hc : child ≠ 0) (hs : (if sig = SIGTSTP then SIGSTOP else sig) = SIGSTOP) :
    (forward_signal child cf sig).raisedSelf = [SIGSTOP] := by
  simp only [forward_signal, if_neg hc]
  simp [hs]

/-- Witness for C10, at `child_pid = 1`, a failing remote call, and
signal `SIGTSTP`. -/
theorem forward_signal_sigstop_raises_self_witness :
    (forward_signal 1 true SIGTSTP).raisedSelf = [SIGSTOP] :=
  forward_signal_sigstop_raises_self 1 true SIGTSTP (by decide) (by decide)

/-- C8: a `NameOwnerChanged` notification reporting that the spawn
service's bus name transitioned to no owner makes the relay exit
immediately with status 1, while a closed bus connection quits the main
loop after which `main` returns 0; the two terminal conditions yield
distinct exit statuses. -/
theorem bus_terminal_conditions (svc oldOwner : String) :
    name_owner_changed svc svc oldOwner "" = .exitNow 1 ∧
    session_bus_closed_cb = .quitLoop ∧
    main_return_after_loop = 0 ∧
    (1 : Nat) ≠ 0 := by
  refine ⟨?_, rfl, rfl, by decide⟩
  simp [name_owner_changed]

/-! ## Environment edits (flatpak-spawn.c:557-675)

`opt_env` and `opt_unsetenv` are `GHashTable`s; we model them as an
association list and a list of names.  Hash-table iteration order is
unspecified, so only lookup and membership are meaningful; list positions
are an arbitrary representation choice. -/

structure EnvState where
  env : List (String × String)
  unsetenv : List String
deriving DecidableEq, Repr

def emptyEnvState : EnvState := { env := [], unsetenv := [] }

def lookupAssoc : List (String × String) → String → Option String
  | [], _ => none
  | (k, val) :: rest, v => if k = v then some val else lookupAssoc rest v

/-- `g_hash_table_remove (opt_unsetenv, var); g_hash_table_replace
(opt_env, var, val)` — the body of `opt_env_cb` and of each `--env-fd`
entry. -/
def envSet (s : EnvState) (var val : String) : EnvState :=
  { env := (var, val) :: s.env.filter (fun p => p.1 ≠ var),
    unsetenv := s.unsetenv.filter (fun n => n ≠ var) }

/-- `g_hash_table_remove (opt_env, value); g_hash_table_add
(opt_unsetenv, value)` — the body of `opt_unset_env_cb`. -/
def envUnset (s : EnvState) (var : String) : EnvState :=
  { env := s.env.filter (fun p => p.1 ≠ var),
    unsetenv := var :: s.unsetenv.filter (fun n => n ≠ var) }

/-- Parsing of one `VAR=VALUE` entry: the entry must contain `=`
(`memchr`/`g_strsplit` finding a separator) at a nonzero offset, and
splits at the first `=` into name and value.  Shared by `opt_env_cb`
(on the whole option value) and by the `option_env_fd_cb` loop (on each
NUL-delimited entry). -/
def envEntryParse (entry : List Char) : Option (String × String) :=
  match entry.dropWhile (fun ch => ch ≠ '=') with
  | [] => none
  | _ :: valCs =>
    if entry.takeWhile (fun ch => ch ≠ '=') = [] then none
    else some (String.mk (entry.takeWhile (fun ch => ch ≠ '=')), String.mk valCs)

/-- `g_strsplit (value, "=", 2)` plus the validity test of `opt_env_cb`:
the value must contain `=` and the name before the first `=` must be
nonempty. -/
def parse_env_arg (value : String) : Option (String × String) :=
  envEntryParse value.toList

def opt_env_cb (s : EnvState) (value : String) : Except Unit EnvState :=
  match parse_env_arg value with
  | none => .error ()
  | some (var, val) => .ok (envSet s var val)

def opt_unset_env_cb (s : EnvState) (value : String) : EnvState :=
  envUnset s value

/-- Length bound used for the termination of the `--env-fd` parsing
recursions. -/
theorem dropWhile_tail_length_lt (p : Char → Bool) (a : Char) (l : List Char) :
    ((a :: l).dropWhile p).tail.length < (a :: l).length := by
  have h1 : ((a :: l).dropWhile p).length ≤ (a :: l).length :=
    (List.dropWhile_suffix p).length_le
  have h2 := List.length_tail ((a :: l).dropWhile p)
  simp only [List.length_cons] at *
  omega

def nulChar : Char := Char.ofNat 0

/-- The `--env-fd` parsing loop of `option_env_fd_cb` applied to the
NUL-separated `VAR=VALUE` block read from the descriptor: each entry up
to the next NUL must contain `=` at a nonzero offset; valid entries are
applied like `--env` (`g_hash_table_remove` from `opt_unsetenv`,
`g_hash_table_replace` into `opt_env`).  A leading NUL is the empty-entry
error case (`strnlen` yields 0, `memchr` finds no `=`). -/
def option_env_fd_apply : EnvState → List Char → Except Unit EnvState
  | s, [] => .ok s
  | s, c :: cs =>
    match envEntryParse ((c :: cs).takeWhile (fun ch => ch ≠ nulChar)) with
    | none => .error ()
    | some (var, val) =>
      let s2 := envSet s var val
      let rest := (c :: cs).dropWhile (fun ch => ch ≠ nulChar)
      if rest.isEmpty then .ok s2 else option_env_fd_apply s2 rest.tail
termination_by _ l => l.length
decreasing_by
  exact dropWhile_tail_length_lt _ _ _

/-- Edit operations on the `(opt_env, opt_unsetenv)` pair, used to state
the accumulation semantics of the three environment options. -/
inductive EnvOp where
  | set (var val : String)
  | unset (var : String)
deriving DecidableEq, Repr

def applyEnvOp (s : EnvState) : EnvOp → EnvState
  | .set var val => envSet s var val
  | .unset var => envUnset s var

def applyEnvOps (s : EnvState) (ops : List EnvOp) : EnvState :=
  ops.foldl applyEnvOp s

/-- The edit list an `--env-fd` block denotes, mirroring the recursion of
`option_env_fd_apply`. -/
def option_env_fd_edits : List Char → List EnvOp
  | [] => []
  | c :: cs =>
    match envEntryParse ((c :: cs).takeWhile (fun ch => ch ≠ nulChar)) with
    | none => []
    | some (var, val) =>
      let rest := (c :: cs).dropWhile (fun ch => ch ≠ nulChar)
      .set var val :: (if rest.isEmpty then [] else option_env_fd_edits rest.tail)
termination_by l => l.length
decreasing_by
  exact dropWhile_tail_length_lt _ _ _

/-- One environment-affecting command-line argument, in command-line
order: `--env VALUE`, `--unset-env VALUE`, or `--env-fd FD` with the
block read from the descriptor. -/
inductive CliEnvArg where
  | envArg (value : String)
  | unsetEnvArg (value : String)
  | envFdArg (block : List Char)

def applyCliEnvArg (s : EnvState) : CliEnvArg → Except Unit EnvState
  | .envArg v => opt_env_cb s v
  | .unsetEnvArg v => .ok (opt_unset_env_cb s v)
  | .envFdArg b => option_env_fd_apply s b

def applyCliEnvArgs : EnvState → List CliEnvArg → Except Unit EnvState
  | s, [] => .ok s
  | s, a :: rest =>
    match applyCliEnvArg s a with
    | .error e => .error e
    | .ok s2 => applyCliEnvArgs s2 rest

def cliEdits : CliEnvArg → List EnvOp
  | .envArg v =>
    match parse_env_arg v with
    | none => []
    | some (var, val) => [.set var val]
  | .unsetEnvArg v => [.unset v]
  | .envFdArg b => option_env_fd_edits b

def cliEditsAll : List CliEnvArg → List EnvOp
  | [] => []
  | a :: rest => cliEdits a ++ cliEditsAll rest

def envOpVar : EnvOp → String
  | .set var _ => var
  | .unset var => var

def lastEditFrom (init : Option EnvOp) (ops : List EnvOp) (v : String) : Option EnvOp :=
  ops.foldl (fun acc op => if envOpVar op = v then some op else acc) init

/-- The most recent edit of variable `v` in an edit list. -/
def lastEnvEdit (ops : List EnvOp) (v : String) : Option EnvOp :=
  lastEditFrom none ops v

/-! ### Lookup/membership lemmas for the hash-table model -/

theorem lookupAssoc_filter (l : List (String × String)) (w v : String) :
    lookupAssoc (l.filter (fun p => p.1 ≠ w)) v =
      if v = w then none else lookupAssoc l v := by
  induction l with
  | nil => simp [lookupAssoc]
  | cons p rest ih =>
    by_cases hp : p.1 = w
    · rw [List.filter_cons_of_neg (by simp [hp]), ih]
      by_cases hv : v = w
      · simp [hv]
      · have hpv : ¬p.1 = v := fun h => hv (h.symm.trans hp)
        simp [lookupAssoc, hv, hpv]
    · rw [List.filter_cons_of_pos (by simp [hp])]
      simp only [lookupAssoc]
      by_cases hpv : p.1 = v
      · have hv : ¬v = w := fun hw => hp (hpv.trans hw)
        simp [hpv, hv]
      · simp only [if_neg hpv, ih]

theorem lookup_envSet (s : EnvState) (w val v : String) :
    lookupAssoc (envSet s w val).env v =
      if v = w then some val else lookupAssoc s.env v := by
  show lookupAssoc ((w, val) :: s.env.filter (fun p => p.1 ≠ w)) v = _
  simp only [lookupAssoc]
  by_cases hv : v = w
  · simp [hv]
  · have hwv : ¬w = v := fun h => hv h.symm
    rw [if_neg hwv, lookupAssoc_filter, if_neg hv, if_neg hv]

theorem mem_envSet (s : EnvState) (w val v : String) :
    v ∈ (envSet s w val).unsetenv ↔ v ≠ w ∧ v ∈ s.unsetenv := by
  simp only [envSet, List.mem_filter, decide_eq_true_eq]
  tauto

theorem lookup_envUnset (s : EnvState) (w v : String) :
    lookupAssoc (envUnset s w).env v =
      if v = w then none else lookupAssoc s.env v := by
  simp only [envUnset]
  exact lookupAssoc_filter s.env w v

theorem mem_envUnset (s : EnvState) (w v : String) :
    v ∈ (envUnset s w).unsetenv ↔ v = w ∨ v ∈ s.unsetenv := by
  simp only [envUnset, List.mem_cons, List.mem_filter, decide_eq_true_eq]
  by_cases hv : v = w <;> simp [hv]

/-! ### Last-edit-wins characterization of edit folding -/

theorem lastEditFrom_eq (ops : List EnvOp) (v : String) (init : Option EnvOp) :
    lastEditFrom init ops v =
      match lastEnvEdit ops v with
      | some op => some op
      | none => init := by
  induction ops generalizing init with
  | nil => rfl
  | cons op rest ih =>
    show lastEditFrom (if envOpVar op = v then some op else init) rest v = _
    rw [ih]
    have h2 : lastEnvEdit (op :: rest) v =
        lastEditFrom (if envOpVar op = v then some op else none) rest v := rfl
    rw [h2, ih]
    by_cases hv : envOpVar op = v <;>
      simp only [if_pos, if_neg, hv, if_true, if_false] <;>
      cases lastEnvEdit rest v <;> rfl

theorem lastEnvEdit_cons (op : EnvOp) (rest : List EnvOp) (v : String) :
    lastEnvEdit (op :: rest) v =
      match lastEnvEdit rest v with
      | some x => some x
      | none => if envOpVar op = v then some op else none := by
  show lastEditFrom (if envOpVar op = v then some op else none) rest v = _
  rw [lastEditFrom_eq]

theorem applyEnvOps_lookup (ops : List EnvOp) (s : EnvState) (v : String) :
    lookupAssoc (applyEnvOps s ops).env v =
      (match lastEnvEdit ops v with
       | some (.set _ val) => some val
       | some (.unset _) => none
       | none => lookupAssoc s.env v) := by
  induction ops generalizing s with
  | nil => rfl
  | cons op rest ih =>
    have step : applyEnvOps s (op :: rest) = applyEnvOps (applyEnvOp s op) rest := rfl
    rw [step, lastEnvEdit_cons, ih]
    cases h : lastEnvEdit rest v with
    | some x => cases x <;> rfl
    | none =>
      cases op with
      | set w val =>
        by_cases hv : w = v
        · subst hv
          simp [envOpVar, applyEnvOp, lookup_envSet]
        · have hvw : ¬v = w := fun h => hv h.symm
          simp [envOpVar, hv, applyEnvOp, lookup_envSet, hvw]
      | unset w =>
        by_cases hv : w = v
        · subst hv
          simp [envOpVar, applyEnvOp, lookup_envUnset]
        · have hvw : ¬v = w := fun h => hv h.symm
          simp [envOpVar, hv, applyEnvOp, lookup_envUnset, hvw]

theorem applyEnvOps_mem (ops : List EnvOp) (s : EnvState) (v : String) :
    (v ∈ (applyEnvOps s ops).unsetenv) ↔
      (match lastEnvEdit ops v with
       | some (.set _ _) => False
       | some (.unset _) => True
       | none => v ∈ s.unsetenv) := by
  induction ops generalizing s with
  | nil => exact Iff.rfl
  | cons op rest ih =>
    have step : applyEnvOps s (op :: rest) = applyEnvOps (applyEnvOp s op) rest := rfl
    rw [step, lastEnvEdit_cons, ih]
    cases h : lastEnvEdit rest v with
    | some x => cases x <;> exact Iff.rfl
    | none =>
      cases op with
      | set w val =>
        by_cases hv : w = v
        · subst hv
          simp [envOpVar, applyEnvOp, mem_envSet]
        · have hvw : ¬v = w := fun h => hv h.symm
          simp [envOpVar, hv, applyEnvOp, mem_envSet, hvw]
      | unset w =>
        by_cases hv : w = v
        · subst hv
          simp [envOpVar, applyEnvOp, mem_envUnset]
        · have hvw : ¬v = w := fun h => hv h.symm
          simp [envOpVar, hv, applyEnvOp, mem_envUnset, hvw]

/-! ### The CLI layer denotes edit lists -/

theorem option_env_fd_apply_eq_aux (n : Nat) :
    ∀ cs : List Char, cs.length ≤ n → ∀ s s2 : EnvState,
      option_env_fd_apply s cs = .ok s2 →
      s2 = applyEnvOps s (option_env_fd_edits cs) := by
  induction n with
  | zero =>
    intro cs hlen s s2 h
    have hnil : cs = [] := List.eq_nil_of_length_eq_zero (Nat.le_zero.mp hlen)
    subst hnil
    rw [option_env_fd_apply.eq_def] at h
    cases h
    rw [option_env_fd_edits.eq_def]
    rfl
  | succ n ih =>
    intro cs hlen s s2 h
    cases cs with
    | nil =>
      rw [option_env_fd_apply.eq_def] at h
      cases h
      rw [option_env_fd_edits.eq_def]
      rfl
    | cons c cs2 =>
      rw [option_env_fd_apply.eq_def] at h
      have h1 : (match envEntryParse ((c :: cs2).takeWhile (fun ch => ch ≠ nulChar)) with
          | none => (Except.error () : Except Unit EnvState)
          | some (var, val) =>
            if ((c :: cs2).dropWhile (fun ch => ch ≠ nulChar)).isEmpty
              then Except.ok (envSet s var val)
              else option_env_fd_apply (envSet s var val)
                ((c :: cs2).dropWhile (fun ch => ch ≠ nulChar)).tail) = Except.ok s2 := h
      rw [option_env_fd_edits.eq_def]
      show s2 = applyEnvOps s
        (match envEntryParse ((c :: cs2).takeWhile (fun ch => ch ≠ nulChar)) with
         | none => []
         | some (var, val) =>
           EnvOp.set var val ::
             (if ((c :: cs2).dropWhile (fun ch => ch ≠ nulChar)).isEmpty then []
              else option_env_fd_edits ((c :: cs2).dropWhile (fun ch => ch ≠ nulChar)).tail))
      cases hp : envEntryParse ((c :: cs2).takeWhile (fun ch => ch ≠ nulChar)) with
      | none =>
        rw [hp] at h1
        simp at h1
      | some p =>
        obtain ⟨var, val⟩ := p
        rw [hp] at h1
        have h2 : (if ((c :: cs2).dropWhile (fun ch => ch ≠ nulChar)).isEmpty
            then Except.ok (envSet s var val)
            else option_env_fd_apply (envSet s var val)
              ((c :: cs2).dropWhile (fun ch => ch ≠ nulChar)).tail) = Except.ok s2 := h1
        show s2 = applyEnvOps s (EnvOp.set var val ::
          (if ((c :: cs2).dropWhile (fun ch => ch ≠ nulChar)).isEmpty then []
           else option_env_fd_edits ((c :: cs2).dropWhile (fun ch => ch ≠ nulChar)).tail))
        by_cases hrest : ((c :: cs2).dropWhile (fun ch => ch ≠ nulChar)).isEmpty = true
        · rw [if_pos hrest] at h2
          cases h2
          rw [if_pos hrest]
          rfl
        · rw [if_neg hrest] at h2
          rw [if_neg hrest]
          have hlt := dropWhile_tail_length_lt (fun ch => decide (ch ≠ nulChar)) c cs2
          have hlen2 : ((c :: cs2).dropWhile
              (fun ch => decide (ch ≠ nulChar))).tail.length ≤ n := by
            simp only [List.length_cons] at hlt hlen
            omega
          have hres := ih _ hlen2 _ s2 h2
          rw [hres]
          rfl

theorem option_env_fd_apply_eq (s : EnvState) (cs : List Char) (s2 : EnvState)
    (h : option_env_fd_apply s cs = .ok s2) :
    s2 = applyEnvOps s (option_env_fd_edits cs) :=
  option_env_fd_apply_eq_aux cs.length cs (Nat.le_refl _) s s2 h

theorem applyCliEnvArg_eq (a : CliEnvArg) (s s2 : EnvState)
    (h : applyCliEnvArg s a = .ok s2) :
    s2 = applyEnvOps s (cliEdits a) := by
  cases a with
  | envArg v =>
    simp only [applyCliEnvArg, opt_env_cb, cliEdits] at *
    cases hp : parse_env_arg v with
    | none => rw [hp] at h; cases h
    | some p =>
      rw [hp] at h
      cases h
      rfl
  | unsetEnvArg v =>
    simp only [applyCliEnvArg, cliEdits] at *
    cases h
    rfl
  | envFdArg b =>
    exact option_env_fd_apply_eq s b s2 h

theorem applyCliEnvArgs_eq (args : List CliEnvArg) :
    ∀ s s2, applyCliEnvArgs s args = .ok s2 →
      s2 = applyEnvOps s (cliEditsAll args) := by
  induction args with
  | nil =>
    intro s s2 h
    cases h
    rfl
  | cons a rest ih =>
    intro s s2 h
    simp only [applyCliEnvArgs] at h
    cases ha : applyCliEnvArg s a with
    | error e => rw [ha] at h; cases h
    | ok s1 =>
      rw [ha] at h
      have h1 := applyCliEnvArg_eq a s s1 ha
      have h2 := ih s1 s2 h
      rw [h2, h1]
      simp only [cliEditsAll, applyEnvOps, List.foldl_append]

/-! ### The C3 theorem -/

/-- C3: after processing any sequence of `--env VAR=VALUE`,
`--unset-env VAR` and `--env-fd` entries in command-line order (starting
from the empty tables), no variable name appears in both the set map and
the unset set, and the surviving record for each name is the one from its
most recent edit: the most recent `set` leaves exactly a map entry with
its value, the most recent `unset` leaves exactly an unset record, and a
name never edited appears in neither table. -/
theorem env_edits_last_write_wins (args : List CliEnvArg) (v : String) (s : EnvState)
    (h : applyCliEnvArgs emptyEnvState args = .ok s) :
    ¬(lookupAssoc s.env v ≠ none ∧ v ∈ s.unsetenv) ∧
    (match lastEnvEdit (cliEditsAll args) v with
     | some (.set _ val) => lookupAssoc s.env v = some val ∧ v ∉ s.unsetenv
     | some (.unset _) => lookupAssoc s.env v = none ∧ v ∈ s.unsetenv
     | none => lookupAssoc s.env v = none ∧ v ∉ s.unsetenv) := by
  have hs := applyCliEnvArgs_eq args emptyEnvState s h
  subst hs
  have h1 := applyEnvOps_lookup (cliEditsAll args) emptyEnvState v
  have h2 := applyEnvOps_mem (cliEditsAll args) emptyEnvState v
  cases he : lastEnvEdit (cliEditsAll args) v with
  | none =>
    rw [he] at h1 h2
    refine ⟨fun hc => ?_, ?_⟩
    · exact absurd (h2.mp hc.2) (List.not_mem_nil v)
    · exact ⟨h1.trans rfl, fun hm => absurd (h2.mp hm) (List.not_mem_nil v)⟩
  | some op =>
    rw [he] at h1 h2
    cases op with
    | set w val =>
      exact ⟨fun hc => h2.mp hc.2, h1, fun hm => h2.mp hm⟩
    | unset w =>
      exact ⟨fun hc => hc.1 h1, h1, h2.mpr trivial⟩

def c3ExampleArgs : List CliEnvArg :=
  [.envArg "A=1", .unsetEnvArg "A", .envArg "A=2"]

/-- Witness for C3 at the spec's own example `--env A=1 --unset-env A
--env A=2`: the final environment map carries `A=2` and the unset set is
empty. -/
theorem env_edits_last_write_wins_witness :
    applyCliEnvArgs emptyEnvState c3ExampleArgs =
      .ok { env := [("A", "2")], unsetenv := [] } ∧
    (¬(lookupAssoc ({ env := [("A", "2")], unsetenv := [] } : EnvState).env "A" ≠ none ∧
        "A" ∈ ({ env := [("A", "2")], unsetenv := [] } : EnvState).unsetenv) ∧
     (match lastEnvEdit (cliEditsAll c3ExampleArgs) "A" with
      | some (.set _ val) =>
          lookupAssoc ({ env := [("A", "2")], unsetenv := [] } : EnvState).env "A" = some val ∧
          "A" ∉ ({ env := [("A", "2")], unsetenv := [] } : EnvState).unsetenv
      | some (.unset _) =>
          lookupAssoc ({ env := [("A", "2")], unsetenv := [] } : EnvState).env "A" = none ∧
          "A" ∈ ({ env := [("A", "2")], unsetenv := [] } : EnvState).unsetenv
      | none =>
          lookupAssoc ({ env := [("A", "2")], unsetenv := [] } : EnvState).env "A" = none ∧
          "A" ∉ ({ env := [("A", "2")], unsetenv := [] } : EnvState).unsetenv)) :=
  ⟨rfl, env_edits_last_write_wins c3ExampleArgs "A" _ rfl⟩

/-! ## Unset-env compatibility fallback (flatpak-spawn.c:948-998)

When `opt_unsetenv` is nonempty, a subsandbox portal of version ≥ 5 gets
the unset names as the structured `unset-env` option; otherwise (host
portal, which has no options argument, or an older subsandbox portal) the
command line is rewritten by prepending `/usr/bin/env -u NAME` pairs, and
additionally a `/bin/sh -euc 'exec "$@"' sh` wrapper when `argv[0]`
contains `=` (because `env(1)` would misparse it).  The `unsetNames` list
is the hash-table iteration order, which is unspecified; the prepend loop
reverses it. -/

def argvHeadHasEq : List String → Bool
  | [] => false
  | a :: _ => a.contains '='

def applyUnsetEnv (optHost : Bool) (portalVersion : Nat) (unsetNames : List String)
    (argv : List String) : List String × Option (List String) :=
  if unsetNames.isEmpty then (argv, none)
  else if (if optHost then false else portalVersion ≥ 5) then (argv, some unsetNames)
  else
    let argv1 :=
      if argvHeadHasEq argv then
        "/bin/sh" :: "-euc" :: "exec \"$@\"" :: "sh" :: argv
      else argv
    let argv2 := unsetNames.foldl (fun acc k => "-u" :: k :: acc) argv1
    ("/usr/bin/env" :: argv2, none)

/-- One `-u NAME` pair per unset name (in reverse iteration order, as the
backwards-prepending loop produces). -/
def envUnsetArgs : List String → List String
  | [] => []
  | k :: rest => envUnsetArgs rest ++ ["-u", k]

theorem foldl_unset_prepend (names : List String) (L : List String) :
    names.foldl (fun acc k => "-u" :: k :: acc) L = envUnsetArgs names ++ L := by
  induction names generalizing L with
  | nil => rfl
  | cons k rest ih =>
    show rest.foldl _ ("-u" :: k :: L) = _
    rw [ih]
    simp [envUnsetArgs]

/-- C5: with `--unset-env` requested (`names ≠ []`), when the interface in
use lacks structured unset-env (host mode, or subsandbox portal version
below 5) the dispatched argv is prefixed by `/usr/bin/env` followed by one
`-u NAME` pair per unset name, with the `/bin/sh -euc 'exec "$@"' sh`
wrapper inserted exactly when the original command word contains `=`, and
no structured option is emitted; when the subsandbox portal version is at
least 5 the argv is unchanged and the names are sent as the structured
`unset-env` option. -/
theorem unset_env_fallback (host : Bool) (ver : Nat) (names argv : List String)
    (hn : names ≠ []) :
    ((host = true ∨ ver < 5) →
      applyUnsetEnv host ver names argv =
        ("/usr/bin/env" :: (envUnsetArgs names ++
          (if argvHeadHasEq argv then
             "/bin/sh" :: "-euc" :: "exec \"$@\"" :: "sh" :: argv
           else argv)), none)) ∧
    (host = false → 5 ≤ ver →
      applyUnsetEnv host ver names argv = (argv, some names)) := by
  have hne : names.isEmpty = false := by
    cases names with
    | nil => exact absurd rfl hn
    | cons a l => rfl
  constructor
  · intro hcase
    rcases hcase with hh | hv
    · subst hh
      simp [applyUnsetEnv, hne, foldl_unset_prepend]
    · have h5 : ¬(ver ≥ 5) := Nat.not_le.mpr hv
      cases host <;> simp [applyUnsetEnv, hne, h5, foldl_unset_prepend]
  · intro hh h5
    subst hh
    simp [applyUnsetEnv, hne, h5]

/-- Witness for C5 at `host = false`, portal version 4, one unset name
`NOPE` and command `cmd`: the fallback prefix is
`/usr/bin/env -u NOPE cmd` with no shell wrapper. -/
theorem unset_env_fallback_witness :
    ((false = true ∨ 4 < 5) →
      applyUnsetEnv false 4 ["NOPE"] ["cmd"] =
        ("/usr/bin/env" :: (envUnsetArgs ["NOPE"] ++
          (if argvHeadHasEq ["cmd"] then
             "/bin/sh" :: "-euc" :: "exec \"$@\"" :: "sh" :: ["cmd"]
           else ["cmd"])), none)) ∧
    (false = false → 5 ≤ 4 →
      applyUnsetEnv false 4 ["NOPE"] ["cmd"] = (["cmd"], some ["NOPE"])) :=
  unset_env_fallback false 4 ["NOPE"] ["cmd"] (by decide)

/-! ## Forwarded descriptor map (flatpak-spawn.c:818-872)

The `a{uh}` map always starts with stdin/stdout/stderr at handle indices
0, 1, 2; each `--forward-fd` value (as parsed by `strtol`, so 0 also
stands for an unparsable string) is then processed in order: 0 is
rejected with an error and exit 1, values 1 and 2 are skipped because
they are always forwarded, and any other value is appended to the
`GUnixFDList` (which `dup`s it) and then closed locally.  `fdOpen` is the
oracle saying which descriptor numbers are open in the process at
startup; a descriptor closed by an earlier iteration makes the `dup` of a
later duplicate fail (descriptor-number reuse by the allocator is not
modelled), as does a negative value, and any failed append is an error
with exit 1. -/

def fdLoop (fdOpen : Int → Bool) : List Int → List Int → Nat → List (Int × Nat) →
    Option (List (Int × Nat) × Nat)
  | [], _, h, acc => some (acc, h)
  | fd :: rest, closed, h, acc =>
    if fd = 0 then none
    else if 0 ≤ fd ∧ fd ≤ 2 then fdLoop fdOpen rest closed h acc
    else if fd < 0 ∨ fd ∈ closed ∨ fdOpen fd = false then none
    else fdLoop fdOpen rest (fd :: closed) (h + 1) (acc ++ [(fd, h)])

def buildFdMap (fdOpen : Int → Bool) (fds : List Int) :
    Option (List (Int × Nat) × Nat) :=
  fdLoop fdOpen fds [] 3 [(0, 0), (1, 1), (2, 2)]

def fdMapKeys (fdOpen : Int → Bool) (fds : List Int) : Option (List Int) :=
  (buildFdMap fdOpen fds).map (fun r => r.1.map Prod.fst)

/-- Counterexample for C6 as stated: `--forward-fd=0` is not silently
ignored; the code prints `Invalid fd` and exits 1 (modelled as `none`)
instead of producing the map `{0,1,2}` the claim predicts. -/
theorem forward_fd_zero_counterexample :
    fdMapKeys (fun _ => true) [0] = none ∧
    fdMapKeys (fun _ => true) [0] ≠ some [0, 1, 2] := by
  constructor <;> decide

theorem fdLoop_keys (fdOpen : Int → Bool) (fds : List Int) :
    ∀ (closed : List Int) (h : Nat) (acc : List (Int × Nat)),
      (∀ fd ∈ fds, 0 < fd) →
      (∀ fd ∈ fds, 2 < fd → fdOpen fd = true) →
      (fds.filter (fun fd => 2 < fd)).Nodup →
      (∀ fd ∈ fds, 2 < fd → fd ∉ closed) →
      (fdLoop fdOpen fds closed h acc).map (fun r => r.1.map Prod.fst) =
        some (acc.map Prod.fst ++ fds.filter (fun fd => 2 < fd)) := by
  induction fds with
  | nil =>
    intro closed h acc _ _ _ _
    simp [fdLoop]
  | cons fd rest ih =>
    intro closed h acc hpos hopen hnodup hcl
    have hfdpos : (0 : Int) < fd := hpos fd (List.mem_cons_self fd rest)
    have hfd0 : ¬fd = 0 := by omega
    by_cases hle : fd ≤ 2
    · have hcond : (0 : Int) ≤ fd ∧ fd ≤ 2 := ⟨le_of_lt hfdpos, hle⟩
      have hstep : fdLoop fdOpen (fd :: rest) closed h acc =
          fdLoop fdOpen rest closed h acc := by
        rw [fdLoop]
        rw [if_neg hfd0, if_pos hcond]
      rw [hstep]
      rw [ih closed h acc
        (fun x hx => hpos x (List.mem_cons_of_mem fd hx))
        (fun x hx => hopen x (List.mem_cons_of_mem fd hx))
        (by
          rw [List.filter_cons_of_neg (by simpa using not_lt.mpr hle)] at hnodup
          exact hnodup)
        (fun x hx => hcl x (List.mem_cons_of_mem fd hx))]
      rw [List.filter_cons_of_neg (by simpa using not_lt.mpr hle)]
    · have h2fd : (2 : Int) < fd := lt_of_not_le hle
      have hcond : ¬((0 : Int) ≤ fd ∧ fd ≤ 2) := fun hc => hle hc.2
      have hopenfd : fdOpen fd = true :=
        hopen fd (List.mem_cons_self fd rest) h2fd
      have hnotcl : fd ∉ closed := hcl fd (List.mem_cons_self fd rest) h2fd
      have hfilter : (fd :: rest).filter (fun fd => 2 < fd) =
          fd :: rest.filter (fun fd => 2 < fd) :=
        List.filter_cons_of_pos (by simpa using h2fd)
      have hneg : ¬(fd < 0 ∨ fd ∈ closed ∨ fdOpen fd = false) := by
        rintro (hlt | hmem | hof)
        · omega
        · exact hnotcl hmem
        · rw [hopenfd] at hof
          cases hof
      have hstep : fdLoop fdOpen (fd :: rest) closed h acc =
          fdLoop fdOpen rest (fd :: closed) (h + 1) (acc ++ [(fd, h)]) := by
        rw [fdLoop]
        rw [if_neg hfd0, if_neg hcond, if_neg hneg]
      rw [hfilter] at hnodup
      have hnd := List.nodup_cons.mp hnodup
      rw [hstep]
      rw [ih (fd :: closed) (h + 1) (acc ++ [(fd, h)])
        (fun x hx => hpos x (List.mem_cons_of_mem fd hx))
        (fun x hx => hopen x (List.mem_cons_of_mem fd hx))
        hnd.2
        (fun x hx h2x => by
          intro hxmem
          rcases List.mem_cons.mp hxmem with hxfd | hxcl
          · exact hnd.1 (hxfd ▸ List.mem_filter.mpr ⟨hx, by simpa using h2x⟩)
          · exact hcl x (List.mem_cons_of_mem fd hx) h2x hxcl)]
      rw [hfilter]
      simp

/-- C6 (amended): the marshaled descriptor map contains entries for 0, 1
and 2 plus exactly the non-0/1/2 values passed via `--forward-fd` in
order of appearance, provided every value is positive (a value of 0 — or
an unparsable string, which `strtol` also turns into 0 — is instead
rejected with an error and exit 1, refuting the original claim) and no
value above 2 is repeated (the descriptor is closed after the first
append, so a repeat fails); duplicates of 1 and 2 are silently ignored. -/
theorem forward_fd_map_amended (fdOpen : Int → Bool) (fds : List Int)
    (hpos : ∀ fd ∈ fds, 0 < fd)
    (hopen : ∀ fd ∈ fds, 2 < fd → fdOpen fd = true)
    (hnodup : (fds.filter (fun fd => 2 < fd)).Nodup) :
    fdMapKeys fdOpen fds =
      some ([0, 1, 2] ++ fds.filter (fun fd => 2 < fd)) := by
  have := fdLoop_keys fdOpen fds [] 3 [(0, 0), (1, 1), (2, 2)]
    hpos hopen hnodup (fun fd _ _ => List.not_mem_nil fd)
  exact this

/-- Witness for C6 (amended) at `--forward-fd` values 1, 5, 2, 7 with all
descriptors open: the map keys are 0, 1, 2, 5, 7 (the duplicates of 1 and
2 are dropped). -/
theorem forward_fd_map_amended_witness :
    fdMapKeys (fun _ => true) [1, 5, 2, 7] =
      some ([0, 1, 2] ++ [1, 5, 2, 7].filter (fun fd => 2 < fd)) :=
  forward_fd_map_amended (fun _ => true) [1, 5, 2, 7]
    (by decide) (by decide) (by decide)

/-! ## Dispatch with the watch-bus retry (flatpak-spawn.c:1100-1147)

The call replies are given as oracles `resp1`/`resp2` (`.ok pid` or a
D-Bus error); `strip` stands for glib's external
`g_dbus_error_strip_remote_error`, which rewrites the message in place.
`calls` records the flags word of each submitted `HostCommand`/`Spawn`
call, and the outcome is the returned pid or the printed message with the
process exit status. -/

structure DBusCallError where
  invalidArgs : Bool
  message : String
deriving DecidableEq

def FLATPAK_SPAWN_FLAGS_WATCH_BUS : Nat := 16
def FLATPAK_HOST_COMMAND_FLAGS_WATCH_BUS : Nat := 2

def watchBusBit (host : Bool) : Nat :=
  if host then FLATPAK_HOST_COMMAND_FLAGS_WATCH_BUS else FLATPAK_SPAWN_FLAGS_WATCH_BUS

/-- `spawn_flags &= opt_host ? ~FLATPAK_HOST_COMMAND_FLAGS_WATCH_BUS :
~FLATPAK_SPAWN_FLAGS_WATCH_BUS` on a 32-bit `guint`. -/
def clearWatchBusBit (host : Bool) (flags : Nat) : Nat :=
  flags &&& (0xffffffff ^^^ watchBusBit host)

structure DispatchResult where
  calls : List Nat
  outcome : Except (String × Nat) Nat

def dispatchWithRetry (host watchBus : Bool) (flags : Nat)
    (strip : String → String)
    (resp1 resp2 : Except DBusCallError Nat) : DispatchResult :=
  match resp1 with
  | .ok pid => { calls := [flags], outcome := .ok pid }
  | .error e =>
    if e.invalidArgs ∧ watchBus then
      match resp2 with
      | .ok pid => { calls := [flags, clearWatchBusBit host flags], outcome := .ok pid }
      | .error e2 =>
          { calls := [flags, clearWatchBusBit host flags],
            outcome := .error (strip e2.message, 1) }
    else
      { calls := [flags], outcome := .error (strip e.message, 1) }

/-- C4: if the initial call fails with an invalid-arguments error while
watch-bus was requested, exactly one resubmission happens and its flags
word has the watch-bus bit cleared; any other first failure is fatal with
the stripped remote error printed and exit status 1 and no resubmission;
a failure of the resubmitted call is fatal the same way; and no execution
submits more than two calls. -/
theorem watch_bus_retry (host watchBus : Bool) (flags : Nat)
    (strip : String → String) (resp1 resp2 : Except DBusCallError Nat)
    (e e2 : DBusCallError) :
    (e.invalidArgs = true → watchBus = true →
      (dispatchWithRetry host watchBus flags strip (.error e) resp2).calls =
        [flags, clearWatchBusBit host flags] ∧
      clearWatchBusBit host flags &&& watchBusBit host = 0) ∧
    (¬(e.invalidArgs = true ∧ watchBus = true) →
      dispatchWithRetry host watchBus flags strip (.error e) resp2 =
        { calls := [flags], outcome := .error (strip e.message, 1) }) ∧
    (e.invalidArgs = true → watchBus = true →
      (dispatchWithRetry host watchBus flags strip (.error e) (.error e2)).outcome =
        .error (strip e2.message, 1)) ∧
    (dispatchWithRetry host watchBus flags strip resp1 resp2).calls.length ≤ 2 := by
  have hbit : clearWatchBusBit host flags &&& watchBusBit host = 0 := by
    rw [clearWatchBusBit, Nat.and_assoc]
    have : (0xffffffff ^^^ watchBusBit host) &&& watchBusBit host = 0 := by
      cases host <;> decide
    rw [this, Nat.and_zero]
  refine ⟨fun hi hw => ?_, fun hni => ?_, fun hi hw => ?_, ?_⟩
  · constructor
    · simp only [dispatchWithRetry, hi, hw, and_self, if_true]
      cases resp2 <;> rfl
    · exact hbit
  · simp only [dispatchWithRetry, if_neg hni]
  · simp only [dispatchWithRetry, hi, hw, and_self, if_true]
  · cases resp1 with
    | ok pid => simp [dispatchWithRetry]
    | error e3 =>
      simp only [dispatchWithRetry]
      by_cases hc : e3.invalidArgs = true ∧ watchBus = true
      · rw [if_pos hc]
        cases resp2 <;> simp
      · rw [if_neg hc]
        simp

/-- Witness for C4 at `host = false`, `watchBus = true`, flags 16, an
identity strip function, a first invalid-arguments failure and a failing
resubmission. -/
theorem watch_bus_retry_witness :
    (({ invalidArgs := true, message := "inv" } : DBusCallError).invalidArgs = true →
      true = true →
      (dispatchWithRetry false true 16 (fun m => m)
        (.error { invalidArgs := true, message := "inv" })
        (.error { invalidArgs := false, message := "bad" })).calls =
        [16, clearWatchBusBit false 16] ∧
      clearWatchBusBit false 16 &&& watchBusBit false = 0) ∧
    (¬(({ invalidArgs := true, message := "inv" } : DBusCallError).invalidArgs = true ∧
        true = true) →
      dispatchWithRetry false true 16 (fun m => m)
        (.error { invalidArgs := true, message := "inv" })
        (.error { invalidArgs := false, message := "bad" }) =
        { calls := [16],
          outcome := .error ((fun m => m)
            ({ invalidArgs := true, message := "inv" } : DBusCallError).message, 1) }) ∧
    (({ invalidArgs := true, message := "inv" } : DBusCallError).invalidArgs = true →
      true = true →
      (dispatchWithRetry false true 16 (fun m => m)
        (.error { invalidArgs := true, message := "inv" })
        (.error { invalidArgs := false, message := "bad" })).outcome =
        .error ((fun m => m)
          ({ invalidArgs := false, message := "bad" } : DBusCallError).message, 1)) ∧
    (dispatchWithRetry false true 16 (fun m => m)
      (.error { invalidArgs := true, message := "inv" })
      (.error { invalidArgs := false, message := "bad" })).calls.length ≤ 2 :=
  watch_bus_retry false true 16 (fun m => m)
    (.error { invalidArgs := true, message := "inv" })
    (.error { invalidArgs := false, message := "bad" })
    { invalidArgs := true, message := "inv" }
    { invalidArgs := false, message := "bad" }

/-! ## Portal property probes (flatpak-spawn.c:403-497)

`get_portal_version` memoizes in a static starting at 0 and refetches
while the cached value is 0; `get_portal_supports` memoizes with a
separate `ran` flag and only fetches when the version is at least 3.
`World` carries the remote replies (`none` models a failed property
read) together with the other oracles of `main`; `PortalState` carries
the statics plus counters of the property-read round-trips, which the
state-passing embedding makes observable. -/

structure World where
  versionReply : Option Nat
  supportsReply : Option Nat
  openablePath : String → Bool
  fdOpen : Int → Bool

structure PortalState where
  version : Nat := 0
  supports : Nat := 0
  supportsRan : Bool := false
  versionFetches : Nat := 0
  supportsFetches : Nat := 0
deriving DecidableEq

def get_portal_version (w : World) (st : PortalState) : Nat × PortalState :=
  if st.version ≠ 0 then (st.version, st)
  else
    let st2 := { st with versionFetches := st.versionFetches + 1 }
    match w.versionReply with
    | none => (0, st2)
    | some v => (v, { st2 with version := v })

def get_portal_supports (w : World) (st : PortalState) : Nat × PortalState :=
  if st.supportsRan then (st.supports, st)
  else
    let st2 := { st with supportsRan := true }
    let vr := get_portal_version w st2
    if vr.1 ≥ 3 then
      let st3 := { vr.2 with supportsFetches := vr.2.supportsFetches + 1 }
      match w.supportsReply with
      | none => (0, st3)
      | some sup => (sup, { st3 with supports := sup })
    else (0, vr.2)

def FLATPAK_SPAWN_SUPPORT_FLAGS_EXPOSE_PIDS : Nat := 1

/-! ## The option-checking and request-marshaling phase of `main`
(flatpak-spawn.c:744-1098)

`Config` is the result of option parsing; `Request` is the marshaled
`HostCommand`/`Spawn` call.  `mainFlow` is everything `main` does between
option parsing and submitting the call: building the descriptor map,
accumulating the flags word with its `--host` incompatibility checks and
portal version/supports gates, the unset-env handling, and the sandbox
option map.  Every early `return 1`/`exit (1)` in that region is
`.error 1`; `.ok` carries the request about to be submitted, so an
`.error` outcome means the remote call is never issued.  The portal
state is returned in both cases. -/

inductive OptVal where
  | strv (xs : List String)
  | u32 (n : Nat)
  | handles (hs : List Nat)
deriving DecidableEq

structure Config where
  host : Bool
  clearEnv : Bool
  watchBus : Bool
  exposePids : Bool
  sharePids : Bool
  latestVersion : Bool
  sandbox : Bool
  noNetwork : Bool
  sandboxExpose : List String
  sandboxExposeRo : List String
  sandboxExposePath : List String
  sandboxExposePathRo : List String
  sandboxExposePathTry : List String
  sandboxExposePathRoTry : List String
  sandboxFlags : Nat
  forwardFds : List Int
  envState : EnvState
  argv : List String
  directory : Option String
  cwd : String

structure Request where
  host : Bool
  directory : String
  argv : List String
  fds : List (Int × Nat)
  env : List (String × String)
  flags : Nat
  options : List (String × OptVal)

/-- The `--share-pids`/`--expose-pids` block (flatpak-spawn.c:889-914):
`--share-pids` wins over `--expose-pids`; each first rejects `--host`,
then requires portal version 5 resp. 3 and the shared supports bit. -/
def stagePidsFlags (c : Config) (w : World) (st : PortalState) (flags : Nat) :
    (Except Nat Nat) × PortalState :=
  if c.sharePids then
    if c.host then (.error 1, st)
    else
      match get_portal_version w st with
      | (ver, st2) =>
        if ver < 5 then (.error 1, st2)
        else
          match get_portal_supports w st2 with
          | (sup, st3) =>
            if sup &&& FLATPAK_SPAWN_SUPPORT_FLAGS_EXPOSE_PIDS ≠
                FLATPAK_SPAWN_SUPPORT_FLAGS_EXPOSE_PIDS then (.error 1, st3)
            else (.ok (flags ||| 128), st3)
  else if c.exposePids then
    if c.host then (.error 1, st)
    else
      match get_portal_version w st with
      | (ver, st2) =>
        if ver < 3 then (.error 1, st2)
        else
          match get_portal_supports w st2 with
          | (sup, st3) =>
            if sup &&& FLATPAK_SPAWN_SUPPORT_FLAGS_EXPOSE_PIDS ≠
                FLATPAK_SPAWN_SUPPORT_FLAGS_EXPOSE_PIDS then (.error 1, st3)
            else (.ok (flags ||| 32), st3)
  else (.ok flags, st)

/-- One of the `--latest-version`/`--sandbox`/`--no-network` blocks
(flatpak-spawn.c:916-944): reject `--host`, then OR in the flag bit. -/
def addFlagChecked (host cond : Bool) (bit flags : Nat) : Except Nat Nat :=
  if cond then (if host then .error 1 else .ok (flags ||| bit)) else .ok flags

def stageSimpleFlags (c : Config) (flags : Nat) : Except Nat Nat :=
  match addFlagChecked c.host c.latestVersion 2 flags with
  | .error e => .error e
  | .ok f1 =>
    match addFlagChecked c.host c.sandbox 4 f1 with
    | .error e => .error e
    | .ok f2 => addFlagChecked c.host c.noNetwork 8 f2

/-- The unset-env block (flatpak-spawn.c:948-998): the portal version is
probed only in the non-host case with a nonempty unset set; the result is
the possibly rewritten argv and the initial options map. -/
def stageUnsetEnv (c : Config) (w : World) (st : PortalState) (argv : List String) :
    (List String × List (String × OptVal)) × PortalState :=
  if c.envState.unsetenv.isEmpty then ((argv, []), st)
  else
    match (if c.host then ((0 : Nat), st) else get_portal_version w st) with
    | (ver, st2) =>
      match applyUnsetEnv c.host ver c.envState.unsetenv argv with
      | (argv2, some names) => ((argv2, [("unset-env", OptVal.strv names)]), st2)
      | (argv2, none) => ((argv2, []), st2)

/-- One of the `--sandbox-expose`/`--sandbox-expose-ro` blocks
(flatpak-spawn.c:1000-1020). -/
def addStrvOpt (host present : Bool) (name : String) (xs : List String)
    (opts : List (String × OptVal)) : Except Nat (List (String × OptVal)) :=
  if present then
    (if host then .error 1 else .ok (opts ++ [(name, OptVal.strv xs)]))
  else .ok opts

/-- The `--sandbox-flag` block (flatpak-spawn.c:1022-1034). -/
def addSandboxFlagsOpt (c : Config) (w : World) (st : PortalState)
    (opts : List (String × OptVal)) :
    (Except Nat (List (String × OptVal))) × PortalState :=
  if c.sandboxFlags ≠ 0 then
    if c.host then (.error 1, st)
    else
      match get_portal_version w st with
      | (ver, st2) =>
        if ver < 3 then (.error 1, st2)
        else (.ok (opts ++ [("sandbox-flags", OptVal.u32 c.sandboxFlags)]), st2)
  else (.ok opts, st)

/-- `add_paths_to_variant` (flatpak-spawn.c:530-555): for each path, a
successful open-and-append yields the next handle index; a failed open is
fatal unless `ignoreErrors` (the `-try` lists), in which case the path is
skipped. -/
def add_paths_to_variant (openable : String → Bool) (ignoreErrors : Bool) :
    List String → Nat → Option (List Nat × Nat)
  | [], h => some ([], h)
  | p :: rest, h =>
    if openable p then
      match add_paths_to_variant openable ignoreErrors rest (h + 1) with
      | some (hs, h2) => some (h :: hs, h2)
      | none => none
    else if ignoreErrors then add_paths_to_variant openable ignoreErrors rest h
    else none

/-- One of the `--sandbox-expose-path[-ro][-try]` blocks
(flatpak-spawn.c:1036-1074): reject `--host`, require portal version 3,
open the required paths (fatal on failure) then the best-effort ones. -/
def addExposePathOpt (host : Bool) (w : World) (st : PortalState)
    (req try2 : List String) (name : String)
    (opts : List (String × OptVal)) (nextH : Nat) :
    (Except Nat (List (String × OptVal) × Nat)) × PortalState :=
  if ¬req.isEmpty ∨ ¬try2.isEmpty then
    if host then (.error 1, st)
    else
      match get_portal_version w st with
      | (ver, st2) =>
        if ver < 3 then (.error 1, st2)
        else
          match add_paths_to_variant w.openablePath false req nextH with
          | none => (.error 1, st2)
          | some (hs1, h1) =>
            match add_paths_to_variant w.openablePath true try2 h1 with
            | none => (.error 1, st2)
            | some (hs2, h2) =>
              (.ok (opts ++ [(name, OptVal.handles (hs1 ++ hs2))], h2), st2)
  else (.ok (opts, nextH), st)

def flowPathRo (c : Config) (w : World) (fdEntries : List (Int × Nat))
    (flags : Nat) (argv2 : List String) (opts4 : List (String × OptVal))
    (nextH2 : Nat) (st5 : PortalState) : (Except Nat Request) × PortalState :=
  match addExposePathOpt c.host w st5 c.sandboxExposePathRo
      c.sandboxExposePathRoTry "sandbox-expose-fd-ro" opts4 nextH2 with
  | (.error e, st6) => (.error e, st6)
  | (.ok (opts5, _), st6) =>
    (.ok { host := c.host,
           directory := c.directory.getD c.cwd,
           argv := argv2,
           fds := fdEntries,
           env := c.envState.env,
           flags := flags,
           options := opts5 }, st6)

def flowPath (c : Config) (w : World) (fdEntries : List (Int × Nat))
    (flags : Nat) (argv2 : List String) (opts3 : List (String × OptVal))
    (nextH : Nat) (st4 : PortalState) : (Except Nat Request) × PortalState :=
  match addExposePathOpt c.host w st4 c.sandboxExposePath
      c.sandboxExposePathTry "sandbox-expose-fd" opts3 nextH with
  | (.error e, st5) => (.error e, st5)
  | (.ok (opts4, nextH2), st5) =>
    flowPathRo c w fdEntries flags argv2 opts4 nextH2 st5

def flowSandboxFlags (c : Config) (w : World) (fdEntries : List (Int × Nat))
    (flags : Nat) (argv2 : List String) (opts2 : List (String × OptVal))
    (nextH : Nat) (st3 : PortalState) : (Except Nat Request) × PortalState :=
  match addSandboxFlagsOpt c w st3 opts2 with
  | (.error e, st4) => (.error e, st4)
  | (.ok opts3, st4) => flowPath c w fdEntries flags argv2 opts3 nextH st4

def flowExposeRo (c : Config) (w : World) (fdEntries : List (Int × Nat))
    (flags : Nat) (argv2 : List String) (opts1 : List (String × OptVal))
    (nextH : Nat) (st3 : PortalState) : (Except Nat Request) × PortalState :=
  match addStrvOpt c.host (!c.sandboxExposeRo.isEmpty) "sandbox-expose-ro"
      c.sandboxExposeRo opts1 with
  | .error e => (.error e, st3)
  | .ok opts2 => flowSandboxFlags c w fdEntries flags argv2 opts2 nextH st3

def flowExpose (c : Config) (w : World) (fdEntries : List (Int × Nat))
    (flags : Nat) (argv2 : List String) (opts0 : List (String × OptVal))
    (nextH : Nat) (st3 : PortalState) : (Except Nat Request) × PortalState :=
  match addStrvOpt c.host (!c.sandboxExpose.isEmpty) "sandbox-expose"
      c.sandboxExpose opts0 with
  | .error e => (.error e, st3)
  | .ok opts1 => flowExposeRo c w fdEntries flags argv2 opts1 nextH st3

def flowUnset (c : Config) (w : World) (fdEntries : List (Int × Nat))
    (flags : Nat) (nextH : Nat) (st2 : PortalState) :
    (Except Nat Request) × PortalState :=
  match stageUnsetEnv c w st2 c.argv with
  | ((argv2, opts0), st3) => flowExpose c w fdEntries flags argv2 opts0 nextH st3

def flowSimple (c : Config) (w : World) (fdEntries : List (Int × Nat))
    (flags2 : Nat) (nextH : Nat) (st2 : PortalState) :
    (Except Nat Request) × PortalState :=
  match stageSimpleFlags c flags2 with
  | .error e => (.error e, st2)
  | .ok flags3 => flowUnset c w fdEntries flags3 nextH st2

def flowPids (c : Config) (w : World) (fdEntries : List (Int × Nat))
    (flags1 : Nat) (nextH : Nat) : (Except Nat Request) × PortalState :=
  match stagePidsFlags c w {} flags1 with
  | (.error e, st2) => (.error e, st2)
  | (.ok flags2, st2) => flowSimple c w fdEntries flags2 nextH st2

/-- Everything `main` does from building the descriptor map to the point
where the `HostCommand`/`Spawn` call would be submitted, in source order:
descriptor map, flags word with the `--host` incompatibility checks and
portal gates, unset-env handling, sandbox options, working-directory
default.  An `.error 1` outcome is an early `return 1`/`exit (1)` before
the call; an `.ok` outcome carries the marshaled request. -/
def mainFlow (c : Config) (w : World) : (Except Nat Request) × PortalState :=
  match buildFdMap w.fdOpen c.forwardFds with
  | none => (.error 1, {})
  | some (fdEntries, nextH) =>
    let flags0 : Nat := if c.clearEnv then 1 else 0
    let flags1 := if c.watchBus then flags0 ||| (if c.host then 2 else 16) else flags0
    flowPids c w fdEntries flags1 nextH

/-! ### Helper lemmas for the option-checking phase -/

theorem ne_nil_isEmpty_false {α : Type} (xs : List α) (h : xs ≠ []) :
    xs.isEmpty = false := by
  cases xs with
  | nil => exact absurd rfl h
  | cons a l => rfl

theorem isEmpty_true_eq_nil {α : Type} (xs : List α) (h : xs.isEmpty = true) :
    xs = [] := by
  cases xs with
  | nil => rfl
  | cons a l => cases h

theorem stagePidsFlags_host (c : Config) (w : World) (st : PortalState) (f : Nat)
    (hh : c.host = true) :
    stagePidsFlags c w st f =
      if c.sharePids then (.error 1, st)
      else if c.exposePids then (.error 1, st)
      else (.ok f, st) := by
  unfold stagePidsFlags
  rw [hh]
  cases c.sharePids <;> cases c.exposePids <;> simp

theorem stageSimpleFlags_host (c : Config) (f : Nat) (hh : c.host = true) :
    stageSimpleFlags c f =
      if c.latestVersion then .error 1
      else if c.sandbox then .error 1
      else if c.noNetwork then .error 1
      else .ok f := by
  unfold stageSimpleFlags addFlagChecked
  rw [hh]
  cases c.latestVersion <;> cases c.sandbox <;> cases c.noNetwork <;> simp

theorem addStrvOpt_host (present : Bool) (name : String) (xs : List String)
    (opts : List (String × OptVal)) :
    addStrvOpt true present name xs opts =
      if present then .error 1 else .ok opts := by
  cases present <;> simp [addStrvOpt]

theorem addSandboxFlagsOpt_host (c : Config) (w : World) (st : PortalState)
    (opts : List (String × OptVal)) (hh : c.host = true) :
    addSandboxFlagsOpt c w st opts =
      if c.sandboxFlags ≠ 0 then (.error 1, st) else (.ok opts, st) := by
  unfold addSandboxFlagsOpt
  rw [hh]
  by_cases hz : c.sandboxFlags ≠ 0 <;> simp [hz]

theorem addExposePathOpt_host (w : World) (st : PortalState)
    (req try2 : List String) (name : String) (opts : List (String × OptVal))
    (nextH : Nat) :
    addExposePathOpt true w st req try2 name opts nextH =
      if ¬req.isEmpty ∨ ¬try2.isEmpty then (.error 1, st)
      else (.ok (opts, nextH), st) := by
  unfold addExposePathOpt
  by_cases hc : ¬req.isEmpty ∨ ¬try2.isEmpty <;> simp [hc]

/-! ### C7: `--host` plus any subsandbox-only flag exits 1 before dispatch -/

theorem flowPathRo_host_flag (c : Config) (w : World) (fdE : List (Int × Nat))
    (flags : Nat) (argv2 : List String) (opts : List (String × OptVal))
    (nextH : Nat) (st : PortalState) (hh : c.host = true)
    (hflag : c.sandboxExposePathRo ≠ [] ∨ c.sandboxExposePathRoTry ≠ []) :
    (flowPathRo c w fdE flags argv2 opts nextH st).1 = .error 1 := by
  unfold flowPathRo
  rw [hh, addExposePathOpt_host]
  have hcond : ¬c.sandboxExposePathRo.isEmpty ∨ ¬c.sandboxExposePathRoTry.isEmpty := by
    rcases hflag with h1 | h1
    · exact Or.inl (by rw [ne_nil_isEmpty_false _ h1]; decide)
    · exact Or.inr (by rw [ne_nil_isEmpty_false _ h1]; decide)
  rw [if_pos hcond]

theorem flowPath_host_flag (c : Config) (w : World) (fdE : List (Int × Nat))
    (flags : Nat) (argv2 : List String) (opts : List (String × OptVal))
    (nextH : Nat) (st : PortalState) (hh : c.host = true)
    (hflag : c.sandboxExposePath ≠ [] ∨ c.sandboxExposePathTry ≠ [] ∨
      c.sandboxExposePathRo ≠ [] ∨ c.sandboxExposePathRoTry ≠ []) :
    (flowPath c w fdE flags argv2 opts nextH st).1 = .error 1 := by
  unfold flowPath
  rw [hh, addExposePathOpt_host]
  by_cases hc : ¬c.sandboxExposePath.isEmpty ∨ ¬c.sandboxExposePathTry.isEmpty
  · rw [if_pos hc]
  · rw [if_neg hc]
    push_neg at hc
    have h1 : c.sandboxExposePath = [] :=
      isEmpty_true_eq_nil _ (by revert hc; cases c.sandboxExposePath.isEmpty <;> simp)
    have h2 : c.sandboxExposePathTry = [] :=
      isEmpty_true_eq_nil _ (by revert hc; cases c.sandboxExposePathTry.isEmpty <;> simp)
    rcases hflag with h | h | h | h
    · exact absurd h1 h
    · exact absurd h2 h
    · exact flowPathRo_host_flag c w fdE flags argv2 opts nextH st hh (Or.inl h)
    · exact flowPathRo_host_flag c w fdE flags argv2 opts nextH st hh (Or.inr h)

theorem flowSandboxFlags_host_flag (c : Config) (w : World) (fdE : List (Int × Nat))
    (flags : Nat) (argv2 : List String) (opts : List (String × OptVal))
    (nextH : Nat) (st : PortalState) (hh : c.host = true)
    (hflag : c.sandboxFlags ≠ 0 ∨ c.sandboxExposePath ≠ [] ∨
      c.sandboxExposePathTry ≠ [] ∨
      c.sandboxExposePathRo ≠ [] ∨ c.sandboxExposePathRoTry ≠ []) :
    (flowSandboxFlags c w fdE flags argv2 opts nextH st).1 = .error 1 := by
  unfold flowSandboxFlags
  rw [addSandboxFlagsOpt_host c w st opts hh]
  by_cases hz : c.sandboxFlags ≠ 0
  · rw [if_pos hz]
  · rw [if_neg hz]
    rcases hflag with h | h
    · exact absurd h hz
    · exact flowPath_host_flag c w fdE flags argv2 opts nextH st hh h

theorem flowExposeRo_host_flag (c : Config) (w : World) (fdE : List (Int × Nat))
    (flags : Nat) (argv2 : List String) (opts : List (String × OptVal))
    (nextH : Nat) (st : PortalState) (hh : c.host = true)
    (hflag : c.sandboxExposeRo ≠ [] ∨ c.sandboxFlags ≠ 0 ∨
      c.sandboxExposePath ≠ [] ∨ c.sandboxExposePathTry ≠ [] ∨
      c.sandboxExposePathRo ≠ [] ∨ c.sandboxExposePathRoTry ≠ []) :
    (flowExposeRo c w fdE flags argv2 opts nextH st).1 = .error 1 := by
  unfold flowExposeRo
  rw [hh, addStrvOpt_host]
  by_cases he : c.sandboxExposeRo.isEmpty
  · rw [he]
    simp only [Bool.not_true, if_false]
    rcases hflag with h | h
    · exact absurd (isEmpty_true_eq_nil _ he) h
    · exact flowSandboxFlags_host_flag c w fdE flags argv2 opts nextH st hh h
  · have : c.sandboxExposeRo.isEmpty = false := by
      revert he; cases c.sandboxExposeRo.isEmpty <;> simp
    rw [this]
    simp only [Bool.not_false, if_true]

theorem flowExpose_host_flag (c : Config) (w : World) (fdE : List (Int × Nat))
    (flags : Nat) (argv2 : List String) (opts : List (String × OptVal))
    (nextH : Nat) (st : PortalState) (hh : c.host = true)
    (hflag : c.sandboxExpose ≠ [] ∨ c.sandboxExposeRo ≠ [] ∨ c.sandboxFlags ≠ 0 ∨
      c.sandboxExposePath ≠ [] ∨ c.sandboxExposePathTry ≠ [] ∨
      c.sandboxExposePathRo ≠ [] ∨ c.sandboxExposePathRoTry ≠ []) :
    (flowExpose c w fdE flags argv2 opts nextH st).1 = .error 1 := by
  unfold flowExpose
  rw [hh, addStrvOpt_host]
  by_cases he : c.sandboxExpose.isEmpty
  · rw [he]
    simp only [Bool.not_true, if_false]
    rcases hflag with h | h
    · exact absurd (isEmpty_true_eq_nil _ he) h
    · exact flowExposeRo_host_flag c w fdE flags argv2 opts nextH st hh h
  · have : c.sandboxExpose.isEmpty = false := by
      revert he; cases c.sandboxExpose.isEmpty <;> simp
    rw [this]
    simp only [Bool.not_false, if_true]

theorem flowUnset_host_flag (c : Config) (w : World) (fdE : List (Int × Nat))
    (flags : Nat) (nextH : Nat) (st : PortalState) (hh : c.host = true)
    (hflag : c.sandboxExpose ≠ [] ∨ c.sandboxExposeRo ≠ [] ∨ c.sandboxFlags ≠ 0 ∨
      c.sandboxExposePath ≠ [] ∨ c.sandboxExposePathTry ≠ [] ∨
      c.sandboxExposePathRo ≠ [] ∨ c.sandboxExposePathRoTry ≠ []) :
    (flowUnset c w fdE flags nextH st).1 = .error 1 := by
  unfold flowUnset
  rcases hsu : stageUnsetEnv c w st c.argv with ⟨⟨argv2, opts0⟩, st3⟩
  exact flowExpose_host_flag c w fdE flags argv2 opts0 nextH st3 hh hflag

theorem flowSimple_host_flag (c : Config) (w : World) (fdE : List (Int × Nat))
    (flags : Nat) (nextH : Nat) (st : PortalState) (hh : c.host = true)
    (hflag : c.latestVersion = true ∨ c.sandbox = true ∨ c.noNetwork = true ∨
      c.sandboxExpose ≠ [] ∨ c.sandboxExposeRo ≠ [] ∨ c.sandboxFlags ≠ 0 ∨
      c.sandboxExposePath ≠ [] ∨ c.sandboxExposePathTry ≠ [] ∨
      c.sandboxExposePathRo ≠ [] ∨ c.sandboxExposePathRoTry ≠ []) :
    (flowSimple c w fdE flags nextH st).1 = .error 1 := by
  unfold flowSimple
  rw [stageSimpleFlags_host c flags hh]
  cases hlv : c.latestVersion with
  | true => simp
  | false =>
    cases hsb : c.sandbox with
    | true => simp
    | false =>
      cases hnn : c.noNetwork with
      | true => simp
      | false =>
        rw [if_neg Bool.false_ne_true, if_neg Bool.false_ne_true,
          if_neg Bool.false_ne_true]
        rcases hflag with h | h | h | h
        · rw [hlv] at h; cases h
        · rw [hsb] at h; cases h
        · rw [hnn] at h; cases h
        · exact flowUnset_host_flag c w fdE flags nextH st hh h

theorem flowPids_host_flag (c : Config) (w : World) (fdE : List (Int × Nat))
    (flags : Nat) (nextH : Nat) (hh : c.host = true)
    (hflag : c.sharePids = true ∨ c.exposePids = true ∨
      c.latestVersion = true ∨ c.sandbox = true ∨ c.noNetwork = true ∨
      c.sandboxExpose ≠ [] ∨ c.sandboxExposeRo ≠ [] ∨ c.sandboxFlags ≠ 0 ∨
      c.sandboxExposePath ≠ [] ∨ c.sandboxExposePathTry ≠ [] ∨
      c.sandboxExposePathRo ≠ [] ∨ c.sandboxExposePathRoTry ≠ []) :
    (flowPids c w fdE flags nextH).1 = .error 1 := by
  unfold flowPids
  rw [stagePidsFlags_host c w {} flags hh]
  cases hsp : c.sharePids with
  | true => simp
  | false =>
    cases hep : c.exposePids with
    | true => simp
    | false =>
      rw [if_neg Bool.false_ne_true, if_neg Bool.false_ne_true]
      rcases hflag with h | h | h
      · rw [hsp] at h; cases h
      · rw [hep] at h; cases h
      · exact flowSimple_host_flag c w fdE flags nextH {} hh h

/-- C7: combining `--host` with any subsandbox-only flag
(`--share-pids`, `--expose-pids`, `--latest-version`, `--sandbox`,
`--no-network`, `--sandbox-expose`, `--sandbox-expose-ro`,
`--sandbox-flag`, or any `--sandbox-expose-path` variant) makes the relay
print an incompatibility message and exit with status 1; the `.error`
outcome means `mainFlow` never produces a request, so the
`HostCommand`/`Spawn` call is never issued. -/
theorem host_incompatible_flags (c : Config) (w : World)
    (hh : c.host = true)
    (hflag : c.sharePids = true ∨ c.exposePids = true ∨
      c.latestVersion = true ∨ c.sandbox = true ∨ c.noNetwork = true ∨
      c.sandboxExpose ≠ [] ∨ c.sandboxExposeRo ≠ [] ∨ c.sandboxFlags ≠ 0 ∨
      c.sandboxExposePath ≠ [] ∨ c.sandboxExposePathTry ≠ [] ∨
      c.sandboxExposePathRo ≠ [] ∨ c.sandboxExposePathRoTry ≠ []) :
    (mainFlow c w).1 = .error 1 := by
  unfold mainFlow
  cases hfd : buildFdMap w.fdOpen c.forwardFds with
  | none => rfl
  | some pr =>
    obtain ⟨fdEntries, nextH⟩ := pr
    exact flowPids_host_flag c w fdEntries _ nextH hh hflag

/-- Witness for C7 at `--host --sandbox` with a benign world: exit 1 and
no request marshaled. -/
theorem host_incompatible_flags_witness :
    (mainFlow
      { host := true, clearEnv := false, watchBus := false, exposePids := false,
        sharePids := false, latestVersion := false, sandbox := true,
        noNetwork := false, sandboxExpose := [], sandboxExposeRo := [],
        sandboxExposePath := [], sandboxExposePathRo := [],
        sandboxExposePathTry := [], sandboxExposePathRoTry := [],
        sandboxFlags := 0, forwardFds := [], envState := emptyEnvState,
        argv := ["cmd"], directory := none, cwd := "/" }
      { versionReply := some 5, supportsReply := some 1,
        openablePath := fun _ => true, fdOpen := fun _ => true }).1 = .error 1 :=
  host_incompatible_flags _ _ rfl (Or.inr (Or.inr (Or.inr (Or.inl rfl))))

/-! ### C9: portal version/supports gating and probe caching -/

theorem gpv_start (w : World) :
    get_portal_version w {} =
      (w.versionReply.getD 0,
       { version := w.versionReply.getD 0, versionFetches := 1 }) := by
  unfold get_portal_version
  cases w.versionReply <;> rfl

theorem gpv_idle (w : World) (st : PortalState) (hv : st.version ≠ 0) :
    get_portal_version w st = (st.version, st) := by
  unfold get_portal_version
  rw [if_pos hv]

theorem gps_fetch (w : World) (st : PortalState) (hran : st.supportsRan = false)
    (hv : st.version ≠ 0) (hv3 : 3 ≤ st.version) :
    get_portal_supports w st =
      (w.supportsReply.getD 0,
       { st with supportsRan := true,
                 supports := w.supportsReply.getD st.supports,
                 supportsFetches := st.supportsFetches + 1 }) := by
  cases hr : w.supportsReply with
  | none =>
    unfold get_portal_supports get_portal_version
    simp [hran, hv, hv3, hr, Nat.le_of_lt]
  | some sup =>
    unfold get_portal_supports get_portal_version
    simp [hran, hv, hv3, hr]

/-- The portal state after a successful version fetch answering `v`. -/
def stAfterVersion (v : Nat) : PortalState :=
  { version := v, versionFetches := 1 }

/-- The portal state after the version and supports fetches. -/
def stAfterSupports (w : World) (v : Nat) : PortalState :=
  { version := v, supports := w.supportsReply.getD 0, supportsRan := true,
    versionFetches := 1, supportsFetches := 1 }

theorem stagePidsFlags_share_eval (c : Config) (w : World) (f : Nat)
    (hh : c.host = false) (hs : c.sharePids = true) :
    stagePidsFlags c w {} f =
      (if w.versionReply.getD 0 < 5 then (.error 1, stAfterVersion (w.versionReply.getD 0))
       else if w.supportsReply.getD 0 &&& FLATPAK_SPAWN_SUPPORT_FLAGS_EXPOSE_PIDS ≠
           FLATPAK_SPAWN_SUPPORT_FLAGS_EXPOSE_PIDS then
         (.error 1, stAfterSupports w (w.versionReply.getD 0))
       else (.ok (f ||| 128), stAfterSupports w (w.versionReply.getD 0))) := by
  unfold stagePidsFlags
  rw [hs, if_pos rfl, hh, if_neg Bool.false_ne_true, gpv_start]
  by_cases h5 : w.versionReply.getD 0 < 5
  · simp [h5, stAfterVersion]
  · have h5b : 5 ≤ w.versionReply.getD 0 := Nat.le_of_not_lt h5
    have hgps := gps_fetch w (stAfterVersion (w.versionReply.getD 0)) rfl
      (by simp [stAfterVersion]; omega) (by simp [stAfterVersion]; omega)
    simp only [stAfterVersion] at hgps
    simp [h5, hgps, stAfterSupports, stAfterVersion]

theorem stagePidsFlags_expose_eval (c : Config) (w : World) (f : Nat)
    (hh : c.host = false) (hs : c.sharePids = false) (he : c.exposePids = true) :
    stagePidsFlags c w {} f =
      (if w.versionReply.getD 0 < 3 then (.error 1, stAfterVersion (w.versionReply.getD 0))
       else if w.supportsReply.getD 0 &&& FLATPAK_SPAWN_SUPPORT_FLAGS_EXPOSE_PIDS ≠
           FLATPAK_SPAWN_SUPPORT_FLAGS_EXPOSE_PIDS then
         (.error 1, stAfterSupports w (w.versionReply.getD 0))
       else (.ok (f ||| 32), stAfterSupports w (w.versionReply.getD 0))) := by
  unfold stagePidsFlags
  rw [hs, if_neg Bool.false_ne_true, he, if_pos rfl, hh, if_neg Bool.false_ne_true,
    gpv_start]
  by_cases h3 : w.versionReply.getD 0 < 3
  · simp [h3, stAfterVersion]
  · have h3b : 3 ≤ w.versionReply.getD 0 := Nat.le_of_not_lt h3
    have hgps := gps_fetch w (stAfterVersion (w.versionReply.getD 0)) rfl
      (by simp [stAfterVersion]; omega) (by simp [stAfterVersion]; omega)
    simp only [stAfterVersion] at hgps
    simp [h3, hgps, stAfterSupports, stAfterVersion]

theorem stagePidsFlags_gate_share (c : Config) (w : World) (f : Nat)
    (hh : c.host = false) (hs : c.sharePids = true)
    (hcond : w.versionReply.getD 0 < 5 ∨
      w.supportsReply.getD 0 &&& FLATPAK_SPAWN_SUPPORT_FLAGS_EXPOSE_PIDS ≠
        FLATPAK_SPAWN_SUPPORT_FLAGS_EXPOSE_PIDS) :
    (stagePidsFlags c w {} f).1 = .error 1 := by
  rw [stagePidsFlags_share_eval c w f hh hs]
  by_cases h5 : w.versionReply.getD 0 < 5
  · simp [h5]
  · rcases hcond with hlt | hbit
    · exact absurd hlt h5
    · simp [h5, hbit]

theorem stagePidsFlags_gate_expose (c : Config) (w : World) (f : Nat)
    (hh : c.host = false) (hs : c.sharePids = false) (he : c.exposePids = true)
    (hcond : w.versionReply.getD 0 < 3 ∨
      w.supportsReply.getD 0 &&& FLATPAK_SPAWN_SUPPORT_FLAGS_EXPOSE_PIDS ≠
        FLATPAK_SPAWN_SUPPORT_FLAGS_EXPOSE_PIDS) :
    (stagePidsFlags c w {} f).1 = .error 1 := by
  rw [stagePidsFlags_expose_eval c w f hh hs he]
  by_cases h3 : w.versionReply.getD 0 < 3
  · simp [h3]
  · rcases hcond with hlt | hbit
    · exact absurd hlt h3
    · simp [h3, hbit]

theorem flowPids_gate (c : Config) (w : World) (fdE : List (Int × Nat))
    (flags nextH : Nat) (h : (stagePidsFlags c w {} flags).1 = .error 1) :
    (flowPids c w fdE flags nextH).1 = .error 1 := by
  unfold flowPids
  rcases hx : stagePidsFlags c w {} flags with ⟨out, st2⟩
  rw [hx] at h
  have h2 : out = Except.error 1 := h
  subst h2
  rfl

theorem stagePidsFlags_counts (c : Config) (w : World) (f : Nat)
    (hh : c.host = false) (hp : c.sharePids = true ∨ c.exposePids = true) :
    (stagePidsFlags c w {} f).2.versionFetches ≤ 1 ∧
    (stagePidsFlags c w {} f).2.supportsFetches ≤ 1 ∧
    (∀ f2 st2, stagePidsFlags c w {} f = (.ok f2, st2) → st2.version ≠ 0) := by
  by_cases hs : c.sharePids = true
  · rw [stagePidsFlags_share_eval c w f hh hs]
    by_cases h5 : w.versionReply.getD 0 < 5
    · simp only [if_pos h5]
      exact ⟨by simp [stAfterVersion], by simp [stAfterVersion],
        fun f2 st2 h => by cases h⟩
    · simp only [if_neg h5]
      have h5b : 5 ≤ w.versionReply.getD 0 := Nat.le_of_not_lt h5
      by_cases hbit : w.supportsReply.getD 0 &&& FLATPAK_SPAWN_SUPPORT_FLAGS_EXPOSE_PIDS ≠
          FLATPAK_SPAWN_SUPPORT_FLAGS_EXPOSE_PIDS
      · simp only [if_pos hbit]
        exact ⟨by simp [stAfterSupports], by simp [stAfterSupports],
          fun f2 st2 h => by cases h⟩
      · simp only [if_neg hbit]
        refine ⟨by simp [stAfterSupports], by simp [stAfterSupports],
          fun f2 st2 h => ?_⟩
        cases h
        simp [stAfterSupports]
        omega
  · have hs2 : c.sharePids = false := by revert hs; cases c.sharePids <;> simp
    have he : c.exposePids = true := by
      rcases hp with h | h
      · exact absurd h hs
      · exact h
    rw [stagePidsFlags_expose_eval c w f hh hs2 he]
    by_cases h3 : w.versionReply.getD 0 < 3
    · simp only [if_pos h3]
      exact ⟨by simp [stAfterVersion], by simp [stAfterVersion],
        fun f2 st2 h => by cases h⟩
    · simp only [if_neg h3]
      have h3b : 3 ≤ w.versionReply.getD 0 := Nat.le_of_not_lt h3
      by_cases hbit : w.supportsReply.getD 0 &&& FLATPAK_SPAWN_SUPPORT_FLAGS_EXPOSE_PIDS ≠
          FLATPAK_SPAWN_SUPPORT_FLAGS_EXPOSE_PIDS
      · simp only [if_pos hbit]
        exact ⟨by simp [stAfterSupports], by simp [stAfterSupports],
          fun f2 st2 h => by cases h⟩
      · simp only [if_neg hbit]
        refine ⟨by simp [stAfterSupports], by simp [stAfterSupports],
          fun f2 st2 h => ?_⟩
        cases h
        simp [stAfterSupports]
        omega

/-! ### Portal-state preservation once the version is cached -/

theorem stageUnsetEnv_state_idle (c : Config) (w : World) (st : PortalState)
    (argv : List String) (hv : st.version ≠ 0) :
    (stageUnsetEnv c w st argv).2 = st := by
  unfold stageUnsetEnv
  by_cases he : c.envState.unsetenv.isEmpty = true
  · rw [if_pos he]
  · rw [if_neg he]
    have hvr : (if c.host then ((0 : Nat), st) else get_portal_version w st) =
        ((if c.host then (0 : Nat) else st.version), st) := by
      cases c.host <;> simp [gpv_idle w st hv]
    rw [hvr]
    rcases ha : applyUnsetEnv c.host (if c.host then (0 : Nat) else st.version)
      c.envState.unsetenv argv with ⟨argv2, onames⟩
    show (match applyUnsetEnv c.host (if c.host then (0 : Nat) else st.version)
          c.envState.unsetenv argv with
        | (argv2, some names) => ((argv2, [("unset-env", OptVal.strv names)]), st)
        | (argv2, none) => ((argv2, []), st)).2 = st
    rw [ha]
    cases onames <;> rfl

theorem addSandboxFlagsOpt_state_idle (c : Config) (w : World) (st : PortalState)
    (opts : List (String × OptVal)) (hv : st.version ≠ 0) :
    (addSandboxFlagsOpt c w st opts).2 = st := by
  unfold addSandboxFlagsOpt
  by_cases hz : c.sandboxFlags ≠ 0
  · rw [if_pos hz]
    cases hhost : c.host with
    | true => rw [if_pos rfl]
    | false =>
      rw [if_neg Bool.false_ne_true, gpv_idle w st hv]
      show (if st.version < 3 then ((.error 1 : Except Nat (List (String × OptVal))), st)
            else (.ok (opts ++ [("sandbox-flags", OptVal.u32 c.sandboxFlags)]), st)).2 = st
      by_cases h3 : st.version < 3 <;> simp [h3]
  · rw [if_neg hz]

theorem addExposePathOpt_state_idle (host : Bool) (w : World) (st : PortalState)
    (req try2 : List String) (name : String) (opts : List (String × OptVal))
    (nextH : Nat) (hv : st.version ≠ 0) :
    (addExposePathOpt host w st req try2 name opts nextH).2 = st := by
  unfold addExposePathOpt
  by_cases hc : ¬req.isEmpty = true ∨ ¬try2.isEmpty = true
  · rw [if_pos hc]
    cases host with
    | true => rw [if_pos rfl]
    | false =>
      rw [if_neg Bool.false_ne_true, gpv_idle w st hv]
      show (if st.version < 3 then
              ((.error 1 : Except Nat (List (String × OptVal) × Nat)), st)
            else
              match add_paths_to_variant w.openablePath false req nextH with
              | none => (.error 1, st)
              | some (hs1, h1) =>
                match add_paths_to_variant w.openablePath true try2 h1 with
                | none => (.error 1, st)
                | some (hs2, h2) =>
                  (.ok (opts ++ [(name, OptVal.handles (hs1 ++ hs2))], h2), st)).2 = st
      by_cases h3 : st.version < 3
      · simp [h3]
      · rw [if_neg h3]
        rcases h1 : add_paths_to_variant w.openablePath false req nextH with - | ⟨hs1, hh1⟩
        · rfl
        · show (match add_paths_to_variant w.openablePath true try2 hh1 with
                | none => ((Except.error 1 : Except Nat (List (String × OptVal) × Nat)), st)
                | some (hs2, h2) =>
                  (.ok (opts ++ [(name, OptVal.handles (hs1 ++ hs2))], h2), st)).2 = st
          rcases h2 : add_paths_to_variant w.openablePath true try2 hh1 with - | ⟨hs2, hh2⟩
          · rfl
          · rfl
  · rw [if_neg hc]

theorem flowPathRo_state (c : Config) (w : World) (fdE : List (Int × Nat))
    (flags : Nat) (argv2 : List String) (opts : List (String × OptVal))
    (nextH : Nat) (st : PortalState) (hv : st.version ≠ 0) :
    (flowPathRo c w fdE flags argv2 opts nextH st).2 = st := by
  unfold flowPathRo
  rcases hx : addExposePathOpt c.host w st c.sandboxExposePathRo
      c.sandboxExposePathRoTry "sandbox-expose-fd-ro" opts nextH with ⟨out, st6⟩
  have h6 : st6 = st := by
    have h := addExposePathOpt_state_idle c.host w st c.sandboxExposePathRo
      c.sandboxExposePathRoTry "sandbox-expose-fd-ro" opts nextH hv
    rw [hx] at h
    exact h
  cases out with
  | error e => exact h6
  | ok pr =>
    obtain ⟨opts5, hz⟩ := pr
    exact h6

theorem flowPath_state (c : Config) (w : World) (fdE : List (Int × Nat))
    (flags : Nat) (argv2 : List String) (opts : List (String × OptVal))
    (nextH : Nat) (st : PortalState) (hv : st.version ≠ 0) :
    (flowPath c w fdE flags argv2 opts nextH st).2 = st := by
  unfold flowPath
  rcases hx : addExposePathOpt c.host w st c.sandboxExposePath
      c.sandboxExposePathTry "sandbox-expose-fd" opts nextH with ⟨out, st5⟩
  have h5 : st5 = st := by
    have h := addExposePathOpt_state_idle c.host w st c.sandboxExposePath
      c.sandboxExposePathTry "sandbox-expose-fd" opts nextH hv
    rw [hx] at h
    exact h
  cases out with
  | error e => exact h5
  | ok pr =>
    obtain ⟨opts4, nextH2⟩ := pr
    show (flowPathRo c w fdE flags argv2 opts4 nextH2 st5).2 = st
    rw [h5]
    exact flowPathRo_state c w fdE flags argv2 opts4 nextH2 st hv

theorem flowSandboxFlags_state (c : Config) (w : World) (fdE : List (Int × Nat))
    (flags : Nat) (argv2 : List String) (opts : List (String × OptVal))
    (nextH : Nat) (st : PortalState) (hv : st.version ≠ 0) :
    (flowSandboxFlags c w fdE flags argv2 opts nextH st).2 = st := by
  unfold flowSandboxFlags
  rcases hx : addSandboxFlagsOpt c w st opts with ⟨out, st4⟩
  have h4 : st4 = st := by
    have h := addSandboxFlagsOpt_state_idle c w st opts hv
    rw [hx] at h
    exact h
  cases out with
  | error e => exact h4
  | ok opts3 =>
    show (flowPath c w fdE flags argv2 opts3 nextH st4).2 = st
    rw [h4]
    exact flowPath_state c w fdE flags argv2 opts3 nextH st hv

theorem flowExposeRo_state (c : Config) (w : World) (fdE : List (Int × Nat))
    (flags : Nat) (argv2 : List String) (opts : List (String × OptVal))
    (nextH : Nat) (st : PortalState) (hv : st.version ≠ 0) :
    (flowExposeRo c w fdE flags argv2 opts nextH st).2 = st := by
  unfold flowExposeRo
  rcases hx : addStrvOpt c.host (!c.sandboxExposeRo.isEmpty) "sandbox-expose-ro"
      c.sandboxExposeRo opts with _ | opts2
  · rfl
  · exact flowSandboxFlags_state c w fdE flags argv2 opts2 nextH st hv

theorem flowExpose_state (c : Config) (w : World) (fdE : List (Int × Nat))
    (flags : Nat) (argv2 : List String) (opts : List (String × OptVal))
    (nextH : Nat) (st : PortalState) (hv : st.version ≠ 0) :
    (flowExpose c w fdE flags argv2 opts nextH st).2 = st := by
  unfold flowExpose
  rcases hx : addStrvOpt c.host (!c.sandboxExpose.isEmpty) "sandbox-expose"
      c.sandboxExpose opts with _ | opts1
  · rfl
  · exact flowExposeRo_state c w fdE flags argv2 opts1 nextH st hv

theorem flowUnset_state (c : Config) (w : World) (fdE : List (Int × Nat))
    (flags nextH : Nat) (st : PortalState) (hv : st.version ≠ 0) :
    (flowUnset c w fdE flags nextH st).2 = st := by
  unfold flowUnset
  rcases hx : stageUnsetEnv c w st c.argv with ⟨⟨argv2, opts0⟩, st3⟩
  have h3 : st3 = st := by
    have h := stageUnsetEnv_state_idle c w st c.argv hv
    rw [hx] at h
    exact h
  show (flowExpose c w fdE flags argv2 opts0 nextH st3).2 = st
  rw [h3]
  exact flowExpose_state c w fdE flags argv2 opts0 nextH st hv

theorem flowSimple_state (c : Config) (w : World) (fdE : List (Int × Nat))
    (flags nextH : Nat) (st : PortalState) (hv : st.version ≠ 0) :
    (flowSimple c w fdE flags nextH st).2 = st := by
  unfold flowSimple
  rcases hx : stageSimpleFlags c flags with _ | flags3
  · rfl
  · exact flowUnset_state c w fdE flags3 nextH st hv

theorem flowPids_counts (c : Config) (w : World) (fdE : List (Int × Nat))
    (flags nextH : Nat) (hh : c.host = false)
    (hp : c.sharePids = true ∨ c.exposePids = true) :
    (flowPids c w fdE flags nextH).2.versionFetches ≤ 1 ∧
    (flowPids c w fdE flags nextH).2.supportsFetches ≤ 1 := by
  unfold flowPids
  rcases hx : stagePidsFlags c w {} flags with ⟨out, st2⟩
  have hc := stagePidsFlags_counts c w flags hh hp
  rw [hx] at hc
  cases out with
  | error e => exact ⟨hc.1, hc.2.1⟩
  | ok f2 =>
    have hv : st2.version ≠ 0 := hc.2.2 f2 st2 rfl
    show (flowSimple c w fdE f2 nextH st2).2.versionFetches ≤ 1 ∧
      (flowSimple c w fdE f2 nextH st2).2.supportsFetches ≤ 1
    rw [flowSimple_state c w fdE f2 nextH st2 hv]
    exact ⟨hc.1, hc.2.1⟩

/-- C9: with `--expose-pids` (or `--share-pids`) requested in subsandbox
mode, a portal that does not advertise the required version (3 for
expose-pids, 5 for share-pids; a failed version read counts as 0) or the
required supports bit makes the relay exit with status 1, and the
`.error` outcome means the `Spawn` call is never issued; moreover over
the whole pre-dispatch phase, the `version` and `supports` properties are
each read by at most one round-trip — the successful probe results are
cached in the process-lifetime statics and every later consumer reuses
them. -/
theorem pids_capability_gate (c : Config) (w : World) (hh : c.host = false) :
    (c.sharePids = true →
      (w.versionReply.getD 0 < 5 ∨
        w.supportsReply.getD 0 &&& FLATPAK_SPAWN_SUPPORT_FLAGS_EXPOSE_PIDS ≠
          FLATPAK_SPAWN_SUPPORT_FLAGS_EXPOSE_PIDS) →
      (mainFlow c w).1 = .error 1) ∧
    (c.sharePids = false → c.exposePids = true →
      (w.versionReply.getD 0 < 3 ∨
        w.supportsReply.getD 0 &&& FLATPAK_SPAWN_SUPPORT_FLAGS_EXPOSE_PIDS ≠
          FLATPAK_SPAWN_SUPPORT_FLAGS_EXPOSE_PIDS) →
      (mainFlow c w).1 = .error 1) ∧
    ((c.sharePids = true ∨ c.exposePids = true) →
      (mainFlow c w).2.versionFetches ≤ 1 ∧
      (mainFlow c w).2.supportsFetches ≤ 1) := by
  refine ⟨fun hs hcond => ?_, fun hs he hcond => ?_, fun hp => ?_⟩
  · unfold mainFlow
    cases hfd : buildFdMap w.fdOpen c.forwardFds with
    | none => rfl
    | some pr =>
      obtain ⟨fdEntries, nextH⟩ := pr
      exact flowPids_gate c w fdEntries _ nextH
        (stagePidsFlags_gate_share c w _ hh hs hcond)
  · unfold mainFlow
    cases hfd : buildFdMap w.fdOpen c.forwardFds with
    | none => rfl
    | some pr =>
      obtain ⟨fdEntries, nextH⟩ := pr
      exact flowPids_gate c w fdEntries _ nextH
        (stagePidsFlags_gate_expose c w _ hh hs he hcond)
  · unfold mainFlow
    cases hfd : buildFdMap w.fdOpen c.forwardFds with
    | none => exact ⟨Nat.zero_le 1, Nat.zero_le 1⟩
    | some pr =>
      obtain ⟨fdEntries, nextH⟩ := pr
      exact flowPids_counts c w fdEntries _ nextH hh hp

/-- Configuration of the C9 witness: `--expose-pids cmd`, not host mode. -/
def c9Config : Config :=
  { host := false, clearEnv := false, watchBus := false, exposePids := true,
    sharePids := false, latestVersion := false, sandbox := false,
    noNetwork := false, sandboxExpose := [], sandboxExposeRo := [],
    sandboxExposePath := [], sandboxExposePathRo := [],
    sandboxExposePathTry := [], sandboxExposePathRoTry := [],
    sandboxFlags := 0, forwardFds := [], envState := emptyEnvState,
    argv := ["cmd"], directory := none, cwd := "/" }

/-- World of the C9 witness: the portal reports version 2 and its
supports read fails. -/
def c9World : World :=
  { versionReply := some 2, supportsReply := none,
    openablePath := fun _ => true, fdOpen := fun _ => true }

/-- Witness for C9 at `--expose-pids` against a portal whose version
property reads 2: exit 1 without a marshaled request, and at most one
round-trip per property. -/
theorem pids_capability_gate_witness :
    (c9Config.sharePids = true →
      (c9World.versionReply.getD 0 < 5 ∨
        c9World.supportsReply.getD 0 &&& FLATPAK_SPAWN_SUPPORT_FLAGS_EXPOSE_PIDS ≠
          FLATPAK_SPAWN_SUPPORT_FLAGS_EXPOSE_PIDS) →
      (mainFlow c9Config c9World).1 = .error 1) ∧
    (c9Config.sharePids = false → c9Config.exposePids = true →
      (c9World.versionReply.getD 0 < 3 ∨
        c9World.supportsReply.getD 0 &&& FLATPAK_SPAWN_SUPPORT_FLAGS_EXPOSE_PIDS ≠
          FLATPAK_SPAWN_SUPPORT_FLAGS_EXPOSE_PIDS) →
      (mainFlow c9Config c9World).1 = .error 1) ∧
    ((c9Config.sharePids = true ∨ c9Config.exposePids = true) →
      (mainFlow c9Config c9World).2.versionFetches ≤ 1 ∧
      (mainFlow c9Config c9World).2.supportsFetches ≤ 1) :=
  pids_capability_gate c9Config c9World rfl

end FlatpakSpawn

